import Mathlib

/-!
# Verification of the RevoCALC retirement-projection core

A shallow embedding of `useRetirementProjection.js` (the numeric core of the
repository) over exact rationals, together with proofs and refutations of the
stated properties of its components:

* the SARS progressive tax evaluator (`sarsAnnualTax`, `sarsAnnualTaxIndexed`)
  and flat-rate alternative (`flatTax`);
* the net-to-gross bisection inverter (`grossFromNetTarget`);
* the accumulation simulator (`accumulateToRetirement`);
* the decumulation simulator (`simulateDecumulation`);
* the outer contribution solver and orchestrator (`useRetirementProjection`).

Modelling conventions: JavaScript numbers are modelled as `ℚ`.  The only two
places the source computes an irrational value are
`Math.pow(1 + preReturn, 1 / 12) - 1` (the monthly compounding rate) and powers
with a fractional year count; the monthly rate is therefore carried as an
explicit rational parameter (`monthlyRate` / `preMonthlyRate`), and year counts
(loop-trip counts and integer exponents) are taken as natural numbers, matching
the source exactly whenever the age inputs are whole numbers.  Free-text
numeric inputs are modelled as `Option ℚ` (`none` = a string `parseFloat`
cannot parse, i.e. `NaN`).
-/

namespace RevoCALC

/-- Tax regime selector; the source compares `taxMode === "SARS"` and treats
every other string as the flat-rate mode. -/
inductive TaxMode where
  | SARS
  | FLAT
deriving DecidableEq

/-- Depletion order; the source compares `depleteOrder === "TFSA_FIRST"` and
treats every other string as RA-first. -/
inductive DepleteOrder where
  | tfsaFirst
  | raFirst
deriving DecidableEq

/-- Income growth mode; the source compares `incomeGrowthMode === "INFLATION"`
and otherwise uses the custom growth rate. -/
inductive GrowthMode where
  | inflationMode
  | customMode
deriving DecidableEq

/-- One row of the SARS bracket table: `limit` is the inclusive upper limit
(`none` models JavaScript `Infinity`), `base` the tax at the lower bound and
`rate` the marginal rate. -/
structure Bracket where
  limit : Option ℚ
  base : ℚ
  rate : ℚ
deriving DecidableEq

/-- `SARS_BRACKETS_2026` from the source. -/
def SARS_BRACKETS_2026 : List Bracket :=
  [ ⟨some 237100, 0, 0.18⟩
  , ⟨some 370500, 42678, 0.26⟩
  , ⟨some 512800, 77362, 0.31⟩
  , ⟨some 673000, 121475, 0.36⟩
  , ⟨some 857900, 179147, 0.39⟩
  , ⟨some 1817000, 251258, 0.41⟩
  , ⟨none, 644489, 0.45⟩ ]

def SARS_PRIMARY_REBATE : ℚ := 17235
def SARS_SECONDARY_REBATE : ℚ := 9444
def SARS_TERTIARY_REBATE : ℚ := 3145

def TFSA_LIFETIME_LIMIT : ℚ := 500000

/-- `numberOr` from the source: `parseFloat` of the comma-stripped string with
a fallback on `NaN`.  The parse outcome is modelled as `Option ℚ`. -/
def numberOr (value : Option ℚ) (fallback : ℚ) : ℚ :=
  value.getD fallback

/-- Trip count of `for (let y = 0; y < years; y++)` where
`years = Math.max(0, q)`. -/
def loopCount (q : ℚ) : ℕ :=
  ⌈q⌉.toNat

/-- The bracket-location loop of `sarsAnnualTax` (lines 30–41 of the source):
scan the table in order, carrying whether we are at the first bracket and the
previous bracket's limit; on the matching bracket return its tax, otherwise
fall through (returning the initial `tax = 0` if the list is exhausted, which
cannot happen for the fixed table). -/
def sarsBracketScan : List Bracket → Bool → ℚ → ℚ → ℚ
  | [], _, _, _ => 0
  | b :: rest, isFirst, prevLimit, income =>
    match b.limit with
    | none =>
      if b.base = 0 ∨ isFirst then income * b.rate
      else b.base + (income - prevLimit) * b.rate
    | some l =>
      if income ≤ l then
        if b.base = 0 ∨ isFirst then income * b.rate
        else b.base + (income - prevLimit) * b.rate
      else sarsBracketScan rest false l income

/-- The rebate accumulation of `sarsAnnualTax` (lines 42–44): primary rebate,
plus the secondary from age 65 and the tertiary from age 75. -/
def sarsRebate (age : ℚ) : ℚ :=
  SARS_PRIMARY_REBATE
    + (if 65 ≤ age then SARS_SECONDARY_REBATE else 0)
    + (if 75 ≤ age then SARS_TERTIARY_REBATE else 0)

/-- `sarsAnnualTax` from the source. -/
def sarsAnnualTax (income age : ℚ) : ℚ :=
  if income ≤ 0 then 0
  else max 0 (sarsBracketScan SARS_BRACKETS_2026 true 0 income - sarsRebate age)

/-- The bracket-location loop of `sarsAnnualTaxIndexed` (lines 60–77): same
scan with every finite limit and base scaled by `factor`. -/
def sarsBracketScanIndexed (factor : ℚ) : List Bracket → Bool → ℚ → ℚ → ℚ
  | [], _, _, _ => 0
  | b :: rest, isFirst, prevLimitBase, income =>
    match b.limit with
    | none =>
      if b.base = 0 ∨ isFirst then income * b.rate
      else b.base * factor + (income - prevLimitBase * factor) * b.rate
    | some l =>
      if income ≤ l * factor then
        if b.base = 0 ∨ isFirst then income * b.rate
        else b.base * factor + (income - prevLimitBase * factor) * b.rate
      else sarsBracketScanIndexed factor rest false l income

/-- The rebate accumulation of `sarsAnnualTaxIndexed` (lines 78–80): each
rebate scaled by the indexing factor. -/
def sarsRebateIndexed (age factor : ℚ) : ℚ :=
  SARS_PRIMARY_REBATE * factor
    + (if 65 ≤ age then SARS_SECONDARY_REBATE * factor else 0)
    + (if 75 ≤ age then SARS_TERTIARY_REBATE * factor else 0)

/-- `sarsAnnualTaxIndexed` from the source.  `yearsFromNow` is a whole year
count (see the module comment). -/
def sarsAnnualTaxIndexed (income age : ℚ) (yearsFromNow : ℕ) (inflation : ℚ)
    (taxRealism : Bool) : ℚ :=
  if income ≤ 0 then 0
  else if ¬taxRealism ∨ yearsFromNow = 0 ∨ inflation ≤ 0 then
    sarsAnnualTax income age
  else
    max 0 (sarsBracketScanIndexed ((1 + inflation) ^ yearsFromNow)
        SARS_BRACKETS_2026 true 0 income
      - sarsRebateIndexed age ((1 + inflation) ^ yearsFromNow))

/-- `flatTax` from the source. -/
def flatTax (income rate : ℚ) : ℚ :=
  if income ≤ 0 then 0 else income * rate

/-- The `taxMode === "SARS" ? sarsAnnualTaxIndexed(...) : flatTax(...)`
dispatch, which the source inlines at four call sites. -/
def taxAt (taxMode : TaxMode) (flatRate : ℚ) (age : ℚ) (yearsFromNow : ℕ)
    (inflation : ℚ) (taxRealism : Bool) (g : ℚ) : ℚ :=
  match taxMode with
  | .SARS => sarsAnnualTaxIndexed g age yearsFromNow inflation taxRealism
  | .FLAT => flatTax g flatRate

/-! ## Properties of the tax evaluator -/

/-- Closed form of the indexed bracket scan on the fixed 2026 table. -/
lemma scanI_eval (f x : ℚ) :
    sarsBracketScanIndexed f SARS_BRACKETS_2026 true 0 x =
      if x ≤ 237100 * f then x * 0.18
      else if x ≤ 370500 * f then 42678 * f + (x - 237100 * f) * 0.26
      else if x ≤ 512800 * f then 77362 * f + (x - 370500 * f) * 0.31
      else if x ≤ 673000 * f then 121475 * f + (x - 512800 * f) * 0.36
      else if x ≤ 857900 * f then 179147 * f + (x - 673000 * f) * 0.39
      else if x ≤ 1817000 * f then 251258 * f + (x - 857900 * f) * 0.41
      else 644489 * f + (x - 1817000 * f) * 0.45 := by
  norm_num [SARS_BRACKETS_2026, sarsBracketScanIndexed]

/-- The unindexed scan is the indexed scan with factor 1. -/
lemma scan_eq_scanI_one :
    ∀ (bs : List Bracket) (isFirst : Bool) (prev x : ℚ),
      sarsBracketScan bs isFirst prev x =
        sarsBracketScanIndexed 1 bs isFirst prev x := by
  intro bs
  induction bs with
  | nil => intro isFirst prev x; rfl
  | cons b rest ih =>
    intro isFirst prev x
    cases hb : b.limit with
    | none => simp [sarsBracketScan, sarsBracketScanIndexed, hb]
    | some l => simp [sarsBracketScan, sarsBracketScanIndexed, hb, ih]

set_option maxHeartbeats 2000000 in
/-- The bracket scan is monotone in income, for any positive indexing factor. -/
lemma scanI_mono (f : ℚ) (hf : 0 < f) {a b : ℚ} (hab : a ≤ b) :
    sarsBracketScanIndexed f SARS_BRACKETS_2026 true 0 a ≤
      sarsBracketScanIndexed f SARS_BRACKETS_2026 true 0 b := by
  rw [scanI_eval, scanI_eval]
  split_ifs <;> linarith

set_option maxHeartbeats 1000000 in
/-- The bracket scan never exceeds 45% of income (the top marginal rate),
for any positive indexing factor. -/
lemma scanI_le (f x : ℚ) (hf : 0 < f) (hx : 0 < x) :
    sarsBracketScanIndexed f SARS_BRACKETS_2026 true 0 x ≤ (9 / 20) * x := by
  rw [scanI_eval]
  split_ifs <;> linarith

/-- The unindexed rebate is nonnegative. -/
lemma sarsRebate_nonneg (age : ℚ) : 0 ≤ sarsRebate age := by
  unfold sarsRebate SARS_PRIMARY_REBATE SARS_SECONDARY_REBATE
    SARS_TERTIARY_REBATE
  split_ifs <;> norm_num

/-- The indexed rebate is nonnegative for a nonnegative factor. -/
lemma sarsRebateIndexed_nonneg (age f : ℚ) (hf : 0 ≤ f) :
    0 ≤ sarsRebateIndexed age f := by
  unfold sarsRebateIndexed SARS_PRIMARY_REBATE SARS_SECONDARY_REBATE
    SARS_TERTIARY_REBATE
  split_ifs <;> nlinarith

/-- The progressive evaluator never returns a negative tax. -/
lemma sarsAnnualTax_nonneg (income age : ℚ) : 0 ≤ sarsAnnualTax income age := by
  unfold sarsAnnualTax
  split_ifs
  · exact le_refl 0
  · exact le_max_left 0 _

/-- The indexed progressive evaluator never returns a negative tax. -/
lemma sarsAnnualTaxIndexed_nonneg (income age : ℚ) (n : ℕ) (inflation : ℚ)
    (r : Bool) : 0 ≤ sarsAnnualTaxIndexed income age n inflation r := by
  unfold sarsAnnualTaxIndexed
  split_ifs
  · exact le_refl 0
  · exact sarsAnnualTax_nonneg income age
  · exact le_max_left 0 _

/-- Monotonicity in income of the unindexed progressive evaluator. -/
lemma sarsAnnualTax_mono (age : ℚ) {a b : ℚ} (hab : a ≤ b) :
    sarsAnnualTax a age ≤ sarsAnnualTax b age := by
  unfold sarsAnnualTax
  split_ifs with h1 h2 h2
  · exact le_refl 0
  · exact le_max_left 0 _
  · linarith
  · have h := scanI_mono 1 one_pos hab
    rw [← scan_eq_scanI_one, ← scan_eq_scanI_one] at h
    exact max_le_max (le_refl 0) (by linarith)

/-- Monotonicity in income of the indexed progressive evaluator. -/
lemma sarsAnnualTaxIndexed_mono (age : ℚ) (n : ℕ) (inflation : ℚ) (r : Bool)
    {a b : ℚ} (hab : a ≤ b) :
    sarsAnnualTaxIndexed a age n inflation r ≤
      sarsAnnualTaxIndexed b age n inflation r := by
  unfold sarsAnnualTaxIndexed
  rcases le_or_lt a 0 with h1 | h1
  · rw [if_pos h1]
    split_ifs with h2 h3
    · exact le_refl 0
    · exact sarsAnnualTax_nonneg b age
    · exact le_max_left 0 _
  · rw [if_neg (not_le.mpr h1), if_neg (not_le.mpr (lt_of_lt_of_le h1 hab))]
    split_ifs with hG
    · exact sarsAnnualTax_mono age hab
    · push_neg at hG
      have hfac : 0 < (1 + inflation) ^ n := by
        have := hG.2.2
        positivity
      exact max_le_max (le_refl 0) (sub_le_sub_right (scanI_mono _ hfac hab) _)

/-- The indexed progressive evaluator never exceeds 45% of (positive)
income. -/
lemma sarsAnnualTaxIndexed_le (income age : ℚ) (n : ℕ) (inflation : ℚ)
    (r : Bool) (hx : 0 < income) :
    sarsAnnualTaxIndexed income age n inflation r ≤ (9 / 20) * income := by
  have hx20 : 0 ≤ (9 / 20 : ℚ) * income := by positivity
  unfold sarsAnnualTaxIndexed
  split_ifs with h1 h2
  · linarith
  · unfold sarsAnnualTax
    rw [if_neg (by linarith)]
    refine max_le hx20 ?_
    have hs := scanI_le 1 income one_pos hx
    rw [← scan_eq_scanI_one] at hs
    have hr := sarsRebate_nonneg age
    linarith
  · refine max_le hx20 ?_
    have hinf : 0 < inflation := by
      push_neg at h2
      exact h2.2.2
    have hfac : 0 < (1 + inflation) ^ n := by positivity
    have hs := scanI_le _ income hfac hx
    have hr := sarsRebateIndexed_nonneg age _ hfac.le
    linarith

/-- The dispatched tax function is nonnegative (for a nonnegative flat
rate). -/
lemma taxAt_nonneg (tm : TaxMode) (fr age : ℚ) (n : ℕ) (inflation : ℚ)
    (r : Bool) (hfr : tm = TaxMode.FLAT → 0 ≤ fr) (x : ℚ) :
    0 ≤ taxAt tm fr age n inflation r x := by
  cases tm with
  | SARS => exact sarsAnnualTaxIndexed_nonneg x age n inflation r
  | FLAT =>
    unfold taxAt flatTax
    split_ifs with h
    · exact le_refl 0
    · exact mul_nonneg (by linarith) (hfr rfl)

/-- The dispatched tax function is monotone in income (for a nonnegative flat
rate). -/
lemma taxAt_mono (tm : TaxMode) (fr age : ℚ) (n : ℕ) (inflation : ℚ)
    (r : Bool) (hfr : tm = TaxMode.FLAT → 0 ≤ fr) {a b : ℚ} (hab : a ≤ b) :
    taxAt tm fr age n inflation r a ≤ taxAt tm fr age n inflation r b := by
  cases tm with
  | SARS => exact sarsAnnualTaxIndexed_mono age n inflation r hab
  | FLAT =>
    unfold taxAt flatTax
    have h := hfr rfl
    split_ifs with h1 h2 h2
    · exact le_refl 0
    · exact mul_nonneg (by linarith) h
    · linarith
    · exact mul_le_mul_of_nonneg_right hab h

/-- The dispatched tax function never exceeds 45% of (positive) income when
the flat rate is at most 45%. -/
lemma taxAt_le (tm : TaxMode) (fr age : ℚ) (n : ℕ) (inflation : ℚ) (r : Bool)
    (hfr : tm = TaxMode.FLAT → fr ≤ 9 / 20) (x : ℚ) (hx : 0 < x) :
    taxAt tm fr age n inflation r x ≤ (9 / 20) * x := by
  cases tm with
  | SARS => exact sarsAnnualTaxIndexed_le x age n inflation r hx
  | FLAT =>
    unfold taxAt flatTax
    rw [if_neg (by linarith)]
    calc x * fr ≤ x * (9 / 20) := mul_le_mul_of_nonneg_left (hfr rfl) hx.le
    _ = (9 / 20) * x := mul_comm _ _

/-! ## The net-to-gross inverter -/

/-- Return record of `grossFromNetTarget`. -/
structure GrossResult where
  gross : ℚ
  tax : ℚ
  net : ℚ
deriving DecidableEq

/-- One iteration of the bisection loop of `grossFromNetTarget`
(lines 103–115): `T` is the year's tax function, the pair is `(low, high)`. -/
def bisectStep (T : ℚ → ℚ) (netTarget : ℚ) (p : ℚ × ℚ) : ℚ × ℚ :=
  let mid := (p.1 + p.2) / 2
  let net := mid - T mid
  if netTarget ≤ net then (p.1, mid) else (mid, p.2)

/-- `n` iterations of the bisection loop. -/
def bisectIter (T : ℚ → ℚ) (netTarget : ℚ) : ℕ → ℚ × ℚ → ℚ × ℚ
  | 0, p => p
  | n + 1, p => bisectIter T netTarget n (bisectStep T netTarget p)

/-- `grossFromNetTarget` from the source: bisection over
`[netTarget, netTarget / (1 − 0.45)]` for 40 fixed iterations, returning the
final `high` with its tax and realised net. -/
def grossFromNetTarget (netTarget age : ℚ) (taxMode : TaxMode) (flatRate : ℚ)
    (yearsFromNow : ℕ) (inflation : ℚ) (taxRealism : Bool) : GrossResult :=
  if netTarget ≤ 0 then ⟨0, 0, 0⟩
  else
    let T := taxAt taxMode flatRate age yearsFromNow inflation taxRealism
    let p := bisectIter T netTarget 40 (netTarget, netTarget / (1 - 0.45))
    ⟨p.2, T p.2, p.2 - T p.2⟩

/-! ### Bisection invariants -/

/-- The bisection keeps `low ≤ high`. -/
lemma bisectIter_le (T : ℚ → ℚ) (t : ℚ) :
    ∀ (n : ℕ) (p : ℚ × ℚ), p.1 ≤ p.2 →
      (bisectIter T t n p).1 ≤ (bisectIter T t n p).2 := by
  intro n
  induction n with
  | zero => intro p hp; exact hp
  | succ k ih =>
    intro p hp
    refine ih _ ?_
    unfold bisectStep
    dsimp only
    split_ifs <;> simp only <;> linarith

/-- The bracket width is halved at every iteration. -/
lemma bisectIter_width (T : ℚ → ℚ) (t : ℚ) :
    ∀ (n : ℕ) (p : ℚ × ℚ),
      (bisectIter T t n p).2 - (bisectIter T t n p).1 = (p.2 - p.1) / 2 ^ n := by
  intro n
  induction n with
  | zero => intro p; simp [bisectIter]
  | succ k ih =>
    intro p
    unfold bisectIter
    rw [ih]
    unfold bisectStep
    dsimp only
    split_ifs <;> simp only <;> ring

/-- If the net at `high` meets the target, it still does after any number of
iterations (the loop only moves `high` to a midpoint whose net meets the
target). -/
lemma bisectIter_hi (T : ℚ → ℚ) (t : ℚ) :
    ∀ (n : ℕ) (p : ℚ × ℚ), t ≤ p.2 - T p.2 →
      t ≤ (bisectIter T t n p).2 - T (bisectIter T t n p).2 := by
  intro n
  induction n with
  | zero => intro p hp; exact hp
  | succ k ih =>
    intro p hp
    refine ih _ ?_
    unfold bisectStep
    dsimp only
    split_ifs with h
    · exact h
    · exact hp

/-- If the net at `low` is at most the target, it stays so (the loop only
moves `low` to a midpoint whose net misses the target). -/
lemma bisectIter_lo (T : ℚ → ℚ) (t : ℚ) :
    ∀ (n : ℕ) (p : ℚ × ℚ), p.1 - T p.1 ≤ t →
      (bisectIter T t n p).1 - T (bisectIter T t n p).1 ≤ t := by
  intro n
  induction n with
  | zero => intro p hp; exact hp
  | succ k ih =>
    intro p hp
    refine ih _ ?_
    unfold bisectStep
    dsimp only
    split_ifs with h
    · exact hp
    · push_neg at h
      exact h.le

/-- Main bisection estimate: for a monotone tax function, starting from a
bracket whose `high` over-delivers and whose `low` under-delivers, the final
`high` delivers a net in `[t, t + width / 2 ^ n]`. -/
lemma bisectIter_net_bounds (T : ℚ → ℚ) (t : ℚ) (n : ℕ) (p : ℚ × ℚ)
    (hmono : ∀ a b : ℚ, a ≤ b → T a ≤ T b)
    (hp : p.1 ≤ p.2) (hhi : t ≤ p.2 - T p.2) (hlo : p.1 - T p.1 ≤ t) :
    t ≤ (bisectIter T t n p).2 - T (bisectIter T t n p).2 ∧
      (bisectIter T t n p).2 - T (bisectIter T t n p).2 ≤
        t + (p.2 - p.1) / 2 ^ n := by
  refine ⟨bisectIter_hi T t n p hhi, ?_⟩
  have hle := bisectIter_le T t n p hp
  have hw := bisectIter_width T t n p
  have hl := bisectIter_lo T t n p hlo
  have hT := hmono _ _ hle
  linarith

/-- On a nonpositive target the inverter short-circuits to zeros. -/
lemma grossFromNetTarget_zero (netTarget age : ℚ) (tm : TaxMode) (fr : ℚ)
    (yfn : ℕ) (inflation : ℚ) (rb : Bool) (ht : netTarget ≤ 0) :
    grossFromNetTarget netTarget age tm fr yfn inflation rb = ⟨0, 0, 0⟩ := by
  unfold grossFromNetTarget
  rw [if_pos ht]

/-- On a positive target the returned `tax` is the tax at the returned gross
and `net` is their difference. -/
lemma grossFromNetTarget_tax_net (netTarget age : ℚ) (tm : TaxMode) (fr : ℚ)
    (yfn : ℕ) (inflation : ℚ) (rb : Bool) (ht : 0 < netTarget) :
    (grossFromNetTarget netTarget age tm fr yfn inflation rb).tax
        = taxAt tm fr age yfn inflation rb
            (grossFromNetTarget netTarget age tm fr yfn inflation rb).gross
      ∧ (grossFromNetTarget netTarget age tm fr yfn inflation rb).net
        = (grossFromNetTarget netTarget age tm fr yfn inflation rb).gross
          - (grossFromNetTarget netTarget age tm fr yfn inflation rb).tax := by
  unfold grossFromNetTarget
  rw [if_neg (not_le.mpr ht)]
  exact ⟨rfl, rfl⟩

/-- Net delivered by the inverter on a positive target, for a tax function
that is monotone, nonnegative and at most 45% of income (the SARS table
always; the flat mode when its rate is in `[0, 45%]`): the realised net lands
in `[netTarget, netTarget + (9 netTarget / 11) / 2 ^ 40]`. -/
lemma grossFromNetTarget_net_bounds (netTarget age fr : ℚ) (tm : TaxMode)
    (yfn : ℕ) (inflation : ℚ) (rb : Bool)
    (hfr0 : tm = TaxMode.FLAT → 0 ≤ fr) (hfr1 : tm = TaxMode.FLAT → fr ≤ 9 / 20)
    (ht : 0 < netTarget) :
    netTarget ≤ (grossFromNetTarget netTarget age tm fr yfn inflation rb).net ∧
      (grossFromNetTarget netTarget age tm fr yfn inflation rb).net ≤
        netTarget + (9 * netTarget / 11) / 2 ^ 40 := by
  unfold grossFromNetTarget
  rw [if_neg (not_le.mpr ht)]
  dsimp only
  have hmono : ∀ a b : ℚ, a ≤ b →
      taxAt tm fr age yfn inflation rb a ≤ taxAt tm fr age yfn inflation rb b :=
    fun a b hab => taxAt_mono tm fr age yfn inflation rb hfr0 hab
  have hhigh : netTarget / (1 - 0.45) = 20 * netTarget / 11 := by
    rw [show (1 - 0.45 : ℚ) = 11 / 20 by norm_num]
    field_simp
    ring
  have hhpos : 0 < netTarget / (1 - 0.45) := by
    rw [hhigh]
    positivity
  have hTbound := taxAt_le tm fr age yfn inflation rb hfr1 _ hhpos
  have hTnn := taxAt_nonneg tm fr age yfn inflation rb hfr0 netTarget
  have hb := bisectIter_net_bounds (taxAt tm fr age yfn inflation rb) netTarget
      40 (netTarget, netTarget / (1 - 0.45)) hmono
      (by dsimp only; rw [hhigh]; linarith)
      (by dsimp only; rw [hhigh] at hTbound ⊢; linarith)
      (by dsimp only; linarith)
  dsimp only at hb
  refine ⟨hb.1, ?_⟩
  have hw : (netTarget / (1 - 0.45) - netTarget) / 2 ^ 40
      = (9 * netTarget / 11) / 2 ^ 40 := by
    rw [hhigh]
    ring
  rw [hw] at hb
  exact hb.2

/-! ## The accumulation simulator -/

/-- State of the inner month loop of `accumulateToRetirement`
(lines 177–200): the two pool balances, the cumulative lifetime TFSA
contribution, and the year-to-date contribution totals. -/
structure MonthState where
  ra : ℚ
  tfsa : ℚ
  tfsaContribTotal : ℚ
  raAnnual : ℚ
  tfsaAnnual : ℚ
deriving DecidableEq

/-- One month of the accumulation loop: cap the TFSA contribution at the
remaining lifetime headroom, redirect the overflow into the RA pool on top of
its own share, then compound both pools at the monthly rate. -/
def monthStep (yearTfsaDesiredMonthly remainingMonthly monthlyRate : ℚ)
    (s : MonthState) : MonthState :=
  let split :=
    if s.tfsaContribTotal < TFSA_LIFETIME_LIMIT then
      let remainingCap := TFSA_LIFETIME_LIMIT - s.tfsaContribTotal
      let tfsaThisMonth := min yearTfsaDesiredMonthly remainingCap
      (tfsaThisMonth, max 0 (yearTfsaDesiredMonthly - tfsaThisMonth))
    else (0, yearTfsaDesiredMonthly)
  let raThisMonth := remainingMonthly + split.2
  { ra := (s.ra + raThisMonth) * (1 + monthlyRate)
    tfsa := (s.tfsa + split.1) * (1 + monthlyRate)
    tfsaContribTotal := s.tfsaContribTotal + split.1
    raAnnual := s.raAnnual + raThisMonth
    tfsaAnnual := s.tfsaAnnual + split.1 }

/-- `n` months of the accumulation loop. -/
def monthsFold (yearTfsaDesiredMonthly remainingMonthly monthlyRate : ℚ) :
    ℕ → MonthState → MonthState
  | 0, s => s
  | n + 1, s =>
    monthsFold yearTfsaDesiredMonthly remainingMonthly monthlyRate n
      (monthStep yearTfsaDesiredMonthly remainingMonthly monthlyRate s)

/-- One pre-retirement ledger row (`timeline.push` at lines 223–234). -/
structure PreRecord where
  yearIndex : ℕ
  age : ℚ
  raStart : ℚ
  tfsaStart : ℚ
  raEnd : ℚ
  tfsaEnd : ℚ
  totalContribution : ℚ
  raContribution : ℚ
  tfsaContribution : ℚ
  raTaxSaving : ℚ
deriving DecidableEq

/-- Inputs of `accumulateToRetirement`.  `monthlyRate` stands for the
source's `Math.pow(1 + preReturn, 1 / 12) - 1`, carried as a parameter since
the twelfth root is irrational (see the module comment). -/
structure AccInputs where
  currentAge : ℚ
  retireAge : ℚ
  monthlyRate : ℚ
  contributionMonthly : ℚ
  tfsaMonthly : ℚ
  annualIncrease : ℚ
  initialCapitalTaxable : ℚ
  initialTfsaBalance : ℚ
  tfsaContribToDate : ℚ
  grossIncome : ℚ
  reinvestRaTaxSaving : Bool
  inflation : ℚ
  taxRealism : Bool
  incomeGrowthMode : GrowthMode
  incomeGrowthRate : ℚ
deriving DecidableEq

/-- State threaded through the year loop of `accumulateToRetirement`. -/
structure AccState where
  ra : ℚ
  tfsa : ℚ
  tfsaContribTotal : ℚ
  timeline : List PreRecord
deriving DecidableEq

/-- The salary growth selector (lines 152–153). -/
def salaryGrowthRate (inp : AccInputs) : ℚ :=
  match inp.incomeGrowthMode with
  | .inflationMode => inp.inflation
  | .customMode => inp.incomeGrowthRate

/-- One year of `accumulateToRetirement` (lines 157–235): twelve months of
contributions and compounding, the optional year-end reinvestment of the RA
tax saving, and one ledger row. -/
def yearStep (inp : AccInputs) (st : AccState) (y : ℕ) : AccState :=
  let age := inp.currentAge + y
  let yearContributionMonthly :=
    inp.contributionMonthly * (1 + inp.annualIncrease) ^ y
  let yearTfsaDesiredMonthly := inp.tfsaMonthly
  let remainingMonthly :=
    max 0 (yearContributionMonthly - yearTfsaDesiredMonthly)
  let grossIncomeYear := inp.grossIncome * (1 + salaryGrowthRate inp) ^ y
  let raDeductionLimitYear := min (0.275 * grossIncomeYear) 350000
  let m12 := monthsFold yearTfsaDesiredMonthly remainingMonthly
      inp.monthlyRate 12 ⟨st.ra, st.tfsa, st.tfsaContribTotal, 0, 0⟩
  let reinvest :=
    if inp.reinvestRaTaxSaving ∧ 0 < grossIncomeYear ∧ 0 < m12.raAnnual then
      let deductible := min m12.raAnnual raDeductionLimitYear
      let taxBefore :=
        sarsAnnualTaxIndexed grossIncomeYear age y inp.inflation inp.taxRealism
      let taxAfter := sarsAnnualTaxIndexed (grossIncomeYear - deductible) age y
        inp.inflation inp.taxRealism
      max 0 (taxBefore - taxAfter)
    else 0
  { ra := m12.ra + reinvest
    tfsa := m12.tfsa
    tfsaContribTotal := m12.tfsaContribTotal
    timeline := st.timeline ++
      [⟨y, age, st.ra, st.tfsa, m12.ra + reinvest, m12.tfsa,
        yearContributionMonthly * 12, m12.raAnnual, m12.tfsaAnnual,
        reinvest⟩] }

/-- Return record of `accumulateToRetirement`. -/
structure AccResult where
  ra : ℚ
  tfsa : ℚ
  timeline : List PreRecord
deriving DecidableEq

/-- `accumulateToRetirement` from the source. -/
def accumulateToRetirement (inp : AccInputs) : AccResult :=
  let years := loopCount (inp.retireAge - inp.currentAge)
  let st := (List.range years).foldl (yearStep inp)
    ⟨inp.initialCapitalTaxable, inp.initialTfsaBalance,
      inp.tfsaContribToDate, []⟩
  ⟨st.ra, st.tfsa, st.timeline⟩

/-! ## The decumulation simulator -/

/-- One post-retirement ledger row (`timeline.push` at lines 381–392). -/
structure PostRecord where
  yearIndex : ℕ
  age : ℚ
  raStart : ℚ
  tfsaStart : ℚ
  raEnd : ℚ
  tfsaEnd : ℚ
  netRequired : ℚ
  netDelivered : ℚ
  grossWithdrawal : ℚ
  taxPaid : ℚ
deriving DecidableEq

/-- Inputs of `simulateDecumulation`.  `yearsFromNowStart` is a whole year
count (see the module comment). -/
structure DecInputs where
  retireAge : ℚ
  lifeExpectancy : ℚ
  postReturn : ℚ
  inflation : ℚ
  targetNetMonthlyAtRet : ℚ
  raStart : ℚ
  tfsaStart : ℚ
  depleteOrder : DepleteOrder
  taxMode : TaxMode
  flatTaxRate : ℚ
  yearsFromNowStart : ℕ
  taxRealism : Bool
deriving DecidableEq

/-- Return record of `simulateDecumulation`. -/
structure DecResult where
  exhaustionAge : ℚ
  year1GrossWithdrawal : ℚ
  year1NetWithdrawal : ℚ
  year1Tax : ℚ
  timeline : List PostRecord
deriving DecidableEq

/-- A draw from the tax-free pool (lines 283–288/362–367): net-for-net, up to
the lesser of the balance and the remaining need.  Returns the new balance,
remaining need and running gross withdrawal. -/
def tfsaDraw (tfsa remainingNet yearGross : ℚ) : ℚ × ℚ × ℚ :=
  if 0 < tfsa ∧ 0 < remainingNet then
    let fromTfsa := min tfsa remainingNet
    (tfsa - fromTfsa, remainingNet - fromTfsa, yearGross + fromTfsa)
  else (tfsa, remainingNet, yearGross)

/-- A draw from the taxable pool (lines 290–324, inlined a second time at
lines 326–360): gross up the remaining need; if the gross fits, withdraw it,
otherwise withdraw the entire remaining balance and compute tax and net on
that smaller amount.  Returns the new balance, remaining need, running gross
withdrawal and running tax. -/
def raDraw (inp : DecInputs) (age : ℚ) (yearsFromNow : ℕ)
    (ra remainingNet yearGross yearTax : ℚ) : ℚ × ℚ × ℚ × ℚ :=
  if 0 < ra ∧ 0 < remainingNet then
    let r := grossFromNetTarget remainingNet age inp.taxMode inp.flatTaxRate
      yearsFromNow inp.inflation inp.taxRealism
    if r.gross ≤ ra then
      (ra - r.gross, remainingNet - r.net, yearGross + r.gross,
        yearTax + r.tax)
    else
      let grossAll := ra
      let taxAll := taxAt inp.taxMode inp.flatTaxRate age yearsFromNow
        inp.inflation inp.taxRealism grossAll
      (0, remainingNet - (grossAll - taxAll), yearGross + grossAll,
        yearTax + taxAll)
  else (ra, remainingNet, yearGross, yearTax)

/-- The year loop of `simulateDecumulation` (lines 270–398), as fuel
recursion: `fuel` is the number of years still to simulate, `y` the current
year index, `y1` the captured year-1 headline metrics.  The `break` on
unmet need or exhausted capital returns early with the current age as the
exhaustion age; running off the end of the horizon returns with
`exhaustionAge = lifeExpectancy`. -/
def decRun (inp : DecInputs) :
    ℕ → ℕ → ℚ → ℚ → ℚ × ℚ × ℚ → List PostRecord → DecResult
  | 0, _, _, _, y1, acc => ⟨inp.lifeExpectancy, y1.1, y1.2.1, y1.2.2, acc⟩
  | fuel + 1, y, ra, tfsa, y1, acc =>
    let age := inp.retireAge + y
    let yearsFromNow := inp.yearsFromNowStart + y
    let netRequired :=
      inp.targetNetMonthlyAtRet * 12 * (1 + inp.inflation) ^ y
    let drawn : ℚ × ℚ × ℚ × ℚ × ℚ :=
      match inp.depleteOrder with
      | .tfsaFirst =>
        let t := tfsaDraw tfsa netRequired 0
        let r := raDraw inp age yearsFromNow ra t.2.1 t.2.2 0
        (r.1, t.1, r.2.1, r.2.2.1, r.2.2.2)
      | .raFirst =>
        let r := raDraw inp age yearsFromNow ra netRequired 0 0
        let t := tfsaDraw tfsa r.2.1 r.2.2.1
        (r.1, t.1, t.2.1, t.2.2, r.2.2.2)
    let yearNetDelivered := netRequired - max 0 drawn.2.2.1
    let y1' := if y = 0 then (drawn.2.2.2.1, yearNetDelivered, drawn.2.2.2.2)
      else y1
    let raEnd := drawn.1 * (1 + inp.postReturn)
    let tfsaEnd := drawn.2.1 * (1 + inp.postReturn)
    let acc' := acc ++
      [⟨y, age, ra, tfsa, raEnd, tfsaEnd, netRequired, yearNetDelivered,
        drawn.2.2.2.1, drawn.2.2.2.2⟩]
    if 0 < drawn.2.2.1 ∨ raEnd + tfsaEnd ≤ 0 then
      ⟨age, y1'.1, y1'.2.1, y1'.2.2, acc'⟩
    else decRun inp fuel (y + 1) raEnd tfsaEnd y1' acc'

/-- `simulateDecumulation` from the source. -/
def simulateDecumulation (inp : DecInputs) : DecResult :=
  decRun inp (loopCount (inp.lifeExpectancy - inp.retireAge)) 0 inp.raStart
    inp.tfsaStart (0, 0, 0) []

/-! ## The contribution solver and projection orchestrator -/

/-- Raw parameters of `useRetirementProjection`.  Numeric fields arrive as
free text and are modelled as `Option ℚ` (`none` = unparsable, i.e. `NaN`
after `parseFloat`).  `preMonthlyRate` stands for the source's
`Math.pow(1 + preReturn, 1 / 12) - 1` (see the module comment). -/
structure Params where
  currentAge : Option ℚ
  retireAge : Option ℚ
  lifeExpectancy : Option ℚ
  initialCapital : Option ℚ
  initialTfsaBalance : Option ℚ
  tfsaContribToDate : Option ℚ
  targetNetToday : Option ℚ
  preMonthlyRate : ℚ
  postReturn : Option ℚ
  inflation : Option ℚ
  annualIncrease : Option ℚ
  tfsaMonthly : Option ℚ
  grossIncome : Option ℚ
  incomeGrowthMode : GrowthMode
  incomeGrowthRate : Option ℚ
  depleteOrder : DepleteOrder
  taxMode : TaxMode
  flatTaxRate : Option ℚ
  reinvestRaTaxSaving : Bool
  taxRealism : Bool
deriving DecidableEq

/-- The value returned by the source's inner `simulateWithContribution`
closure (lines 499–505): the decumulation outputs plus the capital at
retirement and both ledgers. -/
structure Solution where
  exhaustionAge : ℚ
  year1GrossWithdrawal : ℚ
  year1NetWithdrawal : ℚ
  year1Tax : ℚ
  postTimeline : List PostRecord
  ra : ℚ
  tfsa : ℚ
  preTimeline : List PreRecord
deriving DecidableEq

/-- `simulateWithContribution` (lines 465–506): sanitize the raw inputs
exactly as the enclosing `useMemo` body does, then run accumulation followed
by decumulation for the candidate monthly contribution. -/
def simulateWithContribution (p : Params) (monthly : ℚ) : Solution :=
  let curAge := numberOr p.currentAge 30
  let retAge := numberOr p.retireAge 65
  let lifeExp := numberOr p.lifeExpectancy 100
  let initCap := numberOr p.initialCapital 0
  let initTfsaBal := numberOr p.initialTfsaBalance 0
  let tfsaContribToDateNum := numberOr p.tfsaContribToDate 0
  let targetNetMonthToday := numberOr p.targetNetToday 0
  let post := numberOr p.postReturn 10 / 100
  let inf := numberOr p.inflation 5 / 100
  let inc := numberOr p.annualIncrease 0 / 100
  let tfsaM := numberOr p.tfsaMonthly 0
  let grossInc := numberOr p.grossIncome 0
  let incomeGrowthRateDec := numberOr p.incomeGrowthRate 0 / 100
  let flatRate := numberOr p.flatTaxRate 25 / 100
  let yearsToRetire := loopCount (retAge - curAge)
  let targetNetMonthlyAtRet := targetNetMonthToday * (1 + inf) ^ yearsToRetire
  let acc := accumulateToRetirement
    { currentAge := curAge
      retireAge := retAge
      monthlyRate := p.preMonthlyRate
      contributionMonthly := monthly
      tfsaMonthly := tfsaM
      annualIncrease := inc
      initialCapitalTaxable := initCap
      initialTfsaBalance := initTfsaBal
      tfsaContribToDate := tfsaContribToDateNum
      grossIncome := grossInc
      reinvestRaTaxSaving := p.reinvestRaTaxSaving
      inflation := inf
      taxRealism := p.taxRealism
      incomeGrowthMode := p.incomeGrowthMode
      incomeGrowthRate := incomeGrowthRateDec }
  let dec := simulateDecumulation
    { retireAge := retAge
      lifeExpectancy := lifeExp
      postReturn := post
      inflation := inf
      targetNetMonthlyAtRet := targetNetMonthlyAtRet
      raStart := acc.ra
      tfsaStart := acc.tfsa
      depleteOrder := p.depleteOrder
      taxMode := p.taxMode
      flatTaxRate := flatRate
      yearsFromNowStart := yearsToRetire
      taxRealism := p.taxRealism }
  ⟨dec.exhaustionAge, dec.year1GrossWithdrawal, dec.year1NetWithdrawal,
    dec.year1Tax, dec.timeline, acc.ra, acc.tfsa, acc.timeline⟩

/-- The upper-bound expansion loop (lines 513–518): while the solution
exhausts early and fewer than 10 doublings have happened, double the bound
and re-simulate. -/
def expandHigh (p : Params) (lifeExp : ℚ) :
    ℕ → ℚ → Solution → ℚ × Solution
  | 0, high, sol => (high, sol)
  | n + 1, high, sol =>
    if sol.exhaustionAge < lifeExp then
      expandHigh p lifeExp n (high * 2) (simulateWithContribution p (high * 2))
    else (high, sol)

/-- The outer bisection (lines 520–529): keep the midpoint as the new upper
bound (and solution) when it survives to life expectancy, else raise the
lower bound. -/
def solveBisect (p : Params) (lifeExp : ℚ) :
    ℕ → ℚ → ℚ → Solution → ℚ × Solution
  | 0, _, high, sol => (high, sol)
  | n + 1, low, high, sol =>
    let mid := (low + high) / 2
    let res := simulateWithContribution p mid
    if lifeExp ≤ res.exhaustionAge then solveBisect p lifeExp n low mid res
    else solveBisect p lifeExp n mid high sol

/-- The complete solver run (lines 508–531): initial bound 50 000, at most 10
doublings, then 30 bisection steps; returns the final upper bound (the
required contribution) and the last surviving solution. -/
def solverRun (p : Params) : ℚ × Solution :=
  let lifeExp := numberOr p.lifeExpectancy 100
  let s0 := simulateWithContribution p 50000
  let es := expandHigh p lifeExp 10 50000 s0
  solveBisect p lifeExp 30 0 es.1 es.2

/-- One point of the concatenated capital trajectory (lines 559–575). -/
structure TrajPoint where
  age : ℚ
  total : ℚ
  ra : ℚ
  tfsa : ℚ
deriving DecidableEq

/-- The record returned by `useRetirementProjection` (lines 577–599). -/
structure ProjectionResult where
  requiredMonthlyContribution : ℚ
  taxableCapitalAtRet : ℚ
  tfsaCapitalAtRet : ℚ
  totalCapitalAtRet : ℚ
  targetNetMonthlyAtRet : ℚ
  presentValueRequiredCapital : ℚ
  exhaustionAge : ℚ
  year1DrawdownPct : ℚ
  year1EffectiveTaxRate : ℚ
  effectiveTaxRateNow : ℚ
  maxRaContrib : ℚ
  taxSaving : ℚ
  totalContributionsAtRetirement : ℚ
  totalTaxSavingsAtRetirement : ℚ
  capitalTrajectory : List TrajPoint
  preTimeline : List PreRecord
  postTimeline : List PostRecord
  retirementAgeNumeric : ℚ
  lifeExpectancyNumeric : ℚ
deriving DecidableEq

/-- `useRetirementProjection` from the source (the `useMemo` body,
lines 435–599). -/
def useRetirementProjection (p : Params) : ProjectionResult :=
  let curAge := numberOr p.currentAge 30
  let retAge := numberOr p.retireAge 65
  let lifeExp := numberOr p.lifeExpectancy 100
  let targetNetMonthToday := numberOr p.targetNetToday 0
  let inf := numberOr p.inflation 5 / 100
  let grossInc := numberOr p.grossIncome 0
  let yearsToRetire := loopCount (retAge - curAge)
  let targetNetMonthlyAtRet := targetNetMonthToday * (1 + inf) ^ yearsToRetire
  let maxRaContrib := min (0.275 * grossInc) 350000
  let taxNow := sarsAnnualTax grossInc curAge
  let taxWithMaxRA := sarsAnnualTax (grossInc - maxRaContrib) curAge
  let taxSaving := max 0 (taxNow - taxWithMaxRA)
  let effectiveTaxRateNow := if 0 < grossInc then taxNow / grossInc else 0
  let bs := solverRun p
  let solution := bs.2
  let totalCapitalAtRet := solution.ra + solution.tfsa
  let year1DrawdownPct :=
    if 0 < totalCapitalAtRet then
      solution.year1GrossWithdrawal / totalCapitalAtRet
    else 0
  let discountToToday := (1 + inf) ^ yearsToRetire
  let year1RealGross := solution.year1GrossWithdrawal / discountToToday
  let year1RealTax := solution.year1Tax / discountToToday
  let year1EffectiveTaxRate :=
    if 0 < year1RealGross then year1RealTax / year1RealGross else 0
  let presentValueRequiredCapital :=
    totalCapitalAtRet / (1 + inf) ^ yearsToRetire
  let totalContributionsAtRetirement :=
    solution.preTimeline.foldl (fun sum row => sum + row.totalContribution) 0
  let totalTaxSavingsAtRetirement :=
    solution.preTimeline.foldl (fun sum row => sum + row.raTaxSaving) 0
  let capitalTrajectory :=
    solution.preTimeline.map (fun row =>
      TrajPoint.mk row.age (row.raEnd + row.tfsaEnd) row.raEnd row.tfsaEnd)
    ++ solution.postTimeline.map (fun row =>
      TrajPoint.mk row.age (row.raEnd + row.tfsaEnd) row.raEnd row.tfsaEnd)
  { requiredMonthlyContribution := bs.1
    taxableCapitalAtRet := solution.ra
    tfsaCapitalAtRet := solution.tfsa
    totalCapitalAtRet := totalCapitalAtRet
    targetNetMonthlyAtRet := targetNetMonthlyAtRet
    presentValueRequiredCapital := presentValueRequiredCapital
    exhaustionAge := solution.exhaustionAge
    year1DrawdownPct := year1DrawdownPct
    year1EffectiveTaxRate := year1EffectiveTaxRate
    effectiveTaxRateNow := effectiveTaxRateNow
    maxRaContrib := maxRaContrib
    taxSaving := taxSaving
    totalContributionsAtRetirement := totalContributionsAtRetirement
    totalTaxSavingsAtRetirement := totalTaxSavingsAtRetirement
    capitalTrajectory := capitalTrajectory
    preTimeline := solution.preTimeline
    postTimeline := solution.postTimeline
    retirementAgeNumeric := retAge
    lifeExpectancyNumeric := lifeExp }

/-! ## Claims about the net-to-gross inverter (C1, C10) -/

/-- One bisection step keeps the bracket ordered and does not raise `high`
or lower `low`. -/
lemma bisectStep_bracket (T : ℚ → ℚ) (t : ℚ) (p : ℚ × ℚ) (hp : p.1 ≤ p.2) :
    (bisectStep T t p).1 ≤ (bisectStep T t p).2 ∧
      (bisectStep T t p).2 ≤ p.2 ∧ p.1 ≤ (bisectStep T t p).1 := by
  unfold bisectStep
  dsimp only
  split_ifs <;> exact ⟨by linarith, by linarith, by linarith⟩

/-- The final `high` never exceeds the initial `high`. -/
lemma bisectIter_snd_le (T : ℚ → ℚ) (t : ℚ) :
    ∀ (n : ℕ) (p : ℚ × ℚ), p.1 ≤ p.2 → (bisectIter T t n p).2 ≤ p.2 := by
  intro n
  induction n with
  | zero => intro p _; exact le_refl _
  | succ k ih =>
    intro p hp
    obtain ⟨h1, h2, _⟩ := bisectStep_bracket T t p hp
    exact le_trans (ih _ h1) h2

/-- The final `high` is at least the initial `low`. -/
lemma bisectIter_snd_ge (T : ℚ → ℚ) (t : ℚ) :
    ∀ (n : ℕ) (p : ℚ × ℚ), p.1 ≤ p.2 → p.1 ≤ (bisectIter T t n p).2 := by
  intro n
  induction n with
  | zero => intro p hp; exact hp
  | succ k ih =>
    intro p hp
    obtain ⟨h1, _, h3⟩ := bisectStep_bracket T t p hp
    exact le_trans h3 (ih _ h1)

/-- On a positive target the returned gross stays inside the initial
bracket `[netTarget, netTarget / (1 − 0.45)]`. -/
lemma grossFromNetTarget_gross_bracket (netTarget age fr : ℚ) (tm : TaxMode)
    (yfn : ℕ) (inflation : ℚ) (rb : Bool) (ht : 0 < netTarget) :
    netTarget ≤ (grossFromNetTarget netTarget age tm fr yfn inflation rb).gross
    ∧ (grossFromNetTarget netTarget age tm fr yfn inflation rb).gross ≤
        netTarget / (1 - 0.45) := by
  unfold grossFromNetTarget
  rw [if_neg (not_le.mpr ht)]
  dsimp only
  have hhigh : netTarget / (1 - 0.45) = 20 * netTarget / 11 := by
    rw [show (1 - 0.45 : ℚ) = 11 / 20 by norm_num]
    field_simp
    ring
  have hp : ((netTarget, netTarget / (1 - 0.45)) : ℚ × ℚ).1
      ≤ (netTarget, netTarget / (1 - 0.45)).2 := by
    dsimp only
    rw [hhigh]
    linarith
  exact ⟨bisectIter_snd_ge _ netTarget 40 _ hp,
    bisectIter_snd_le _ netTarget 40 _ hp⟩

set_option maxRecDepth 8000 in
set_option maxHeartbeats 4000000 in
/-- C1: as stated over "every tax configuration" the claim is false: in flat
mode with rate 100% the inverter returns a net of 0 for a target of
1 000 000, missing the target by far more than 1 unit of currency. -/
theorem claims_C1_counterexample :
    ¬ |(grossFromNetTarget 1000000 40 TaxMode.FLAT 1 0 0 false).net
        - 1000000| ≤ 1 := by
  norm_num [grossFromNetTarget, bisectIter, bisectStep, taxAt, flatTax]

/-- C1 (amended): for every netTarget ≤ 10 000 000, every age and indexing
configuration, and every tax configuration that is either the SARS table or
a flat rate in [0, 45%], `grossFromNetTarget` returns zeros on a nonpositive
target, and otherwise a record with `tax = tax(gross)`,
`net = gross − tax(gross)` and `|net − netTarget| ≤ 1`. -/
theorem claims_C1_theorem (netTarget age fr : ℚ) (tm : TaxMode) (yfn : ℕ)
    (inflation : ℚ) (rb : Bool)
    (hfr : tm = TaxMode.FLAT → 0 ≤ fr ∧ fr ≤ 9 / 20)
    (hub : netTarget ≤ 10000000) :
    (netTarget ≤ 0 →
      grossFromNetTarget netTarget age tm fr yfn inflation rb = ⟨0, 0, 0⟩)
    ∧ (0 < netTarget →
      (grossFromNetTarget netTarget age tm fr yfn inflation rb).tax
          = taxAt tm fr age yfn inflation rb
              (grossFromNetTarget netTarget age tm fr yfn inflation rb).gross
      ∧ (grossFromNetTarget netTarget age tm fr yfn inflation rb).net
          = (grossFromNetTarget netTarget age tm fr yfn inflation rb).gross
            - (grossFromNetTarget netTarget age tm fr yfn inflation rb).tax
      ∧ |(grossFromNetTarget netTarget age tm fr yfn inflation rb).net
          - netTarget| ≤ 1) := by
  constructor
  · exact grossFromNetTarget_zero netTarget age tm fr yfn inflation rb
  · intro ht
    obtain ⟨htax, hnet⟩ :=
      grossFromNetTarget_tax_net netTarget age tm fr yfn inflation rb ht
    obtain ⟨hlo, hhi⟩ := grossFromNetTarget_net_bounds netTarget age fr tm yfn
      inflation rb (fun h => (hfr h).1) (fun h => (hfr h).2) ht
    refine ⟨htax, hnet, ?_⟩
    rw [abs_le]
    have h240 : (2 : ℚ) ^ 40 = 1099511627776 := by norm_num
    rw [h240] at hhi
    exact ⟨by linarith, by linarith⟩

/-- C1 witness: concrete instance of the amended claim in SARS mode. -/
theorem claims_C1_witness :
    |(grossFromNetTarget 100000 40 TaxMode.SARS 0 0 0 false).net
      - 100000| ≤ 1 :=
  ((claims_C1_theorem 100000 40 0 TaxMode.SARS 0 0 false (fun h => nomatch h)
    (by norm_num)).2 (by norm_num)).2.2

/-- C10: in SARS mode the inverter never under-delivers — the realised net is
at least the requested target for every target — and consequently in
`simulateDecumulation` a taxable-pool draw whose gross fits within the pool
balance leaves no remaining need for the year. -/
theorem claims_C10_theorem :
    (∀ (netTarget age fr : ℚ) (yfn : ℕ) (inflation : ℚ) (rb : Bool),
      netTarget ≤
        (grossFromNetTarget netTarget age TaxMode.SARS fr yfn inflation
          rb).net)
    ∧ (∀ (inp : DecInputs) (age : ℚ) (yfn : ℕ) (ra rem yg yt : ℚ),
        inp.taxMode = TaxMode.SARS → 0 < ra → 0 < rem →
        (grossFromNetTarget rem age inp.taxMode inp.flatTaxRate yfn
          inp.inflation inp.taxRealism).gross ≤ ra →
        (raDraw inp age yfn ra rem yg yt).2.1 ≤ 0) := by
  have hnet : ∀ (netTarget age fr : ℚ) (yfn : ℕ) (inflation : ℚ) (rb : Bool),
      netTarget ≤
        (grossFromNetTarget netTarget age TaxMode.SARS fr yfn inflation
          rb).net := by
    intro t age fr yfn inflation rb
    rcases le_or_lt t 0 with h | h
    · rw [grossFromNetTarget_zero t age TaxMode.SARS fr yfn inflation rb h]
      exact h
    · exact (grossFromNetTarget_net_bounds t age fr TaxMode.SARS yfn inflation
        rb (fun hh => nomatch hh) (fun hh => nomatch hh) h).1
  refine ⟨hnet, ?_⟩
  intro inp age yfn ra rem yg yt hS hra hrem hfit
  rw [hS] at hfit
  unfold raDraw
  rw [hS]
  rw [if_pos ⟨hra, hrem⟩]
  dsimp only
  rw [if_pos hfit]
  have h1 := hnet rem age inp.flatTaxRate yfn inp.inflation inp.taxRealism
  dsimp only
  linarith

/-- Decumulation inputs for the C10 witness: SARS mode, flat-rate field
unused. -/
def decInputsC10W : DecInputs :=
  ⟨60, 61, 0, 0, 0, 1000000000, 0, DepleteOrder.tfsaFirst, TaxMode.SARS,
    0, 0, false⟩

/-- C10 witness: concrete instances of both conjuncts. -/
theorem claims_C10_witness :
    (1000 : ℚ) ≤ (grossFromNetTarget 1000 65 TaxMode.SARS 0 0 0 false).net
    ∧ (raDraw decInputsC10W 65 0 1000000000 1000 0 0).2.1 ≤ 0 := by
  constructor
  · exact claims_C10_theorem.1 1000 65 0 0 0 false
  · refine claims_C10_theorem.2 decInputsC10W 65 0 1000000000 1000 0 0 rfl
      (by norm_num) (by norm_num) ?_
    have hb := grossFromNetTarget_gross_bracket 1000 65 0
      (decInputsC10W.taxMode) 0 0 false (by norm_num)
    have : (1000 : ℚ) / (1 - 0.45) ≤ 1000000000 := by norm_num
    exact le_trans hb.2 (by
      simpa only [decInputsC10W] using this)

/-! ## Claims about the tax evaluator (C3, C7) -/

/-- C3: as stated ("for every input its result is never negative", "flat-mode
tax equals max(0, taxableIncome × flatRate)") the claim is false: with a
negative flat rate the evaluator returns a negative tax. -/
theorem claims_C3_counterexample :
    flatTax 100 (-(1 / 2) : ℚ) < 0 ∧
      flatTax 100 (-(1 / 2) : ℚ) ≠ max 0 (100 * (-(1 / 2) : ℚ)) := by
  norm_num [flatTax]

/-- C3 (amended): both tax modes return 0 on every nonpositive income; the
progressive mode is never negative for any input; and for a NONNEGATIVE flat
rate the flat mode equals `max 0 (income × rate)` (hence is never
negative). -/
theorem claims_C3_theorem :
    (∀ (income age : ℚ) (n : ℕ) (inflation rate : ℚ) (r : Bool),
      income ≤ 0 →
        sarsAnnualTaxIndexed income age n inflation r = 0 ∧
          flatTax income rate = 0)
    ∧ (∀ (income age : ℚ) (n : ℕ) (inflation : ℚ) (r : Bool),
        0 ≤ sarsAnnualTaxIndexed income age n inflation r)
    ∧ (∀ income rate : ℚ, 0 ≤ rate →
        flatTax income rate = max 0 (income * rate)) := by
  refine ⟨?_, ?_, ?_⟩
  · intro income age n inflation rate r h
    constructor
    · unfold sarsAnnualTaxIndexed
      rw [if_pos h]
    · unfold flatTax
      rw [if_pos h]
  · intro income age n inflation r
    exact sarsAnnualTaxIndexed_nonneg income age n inflation r
  · intro income rate hr
    unfold flatTax
    rcases le_or_lt income 0 with h | h
    · have hm : income * rate ≤ 0 := mul_nonpos_iff.mpr (Or.inr ⟨h, hr⟩)
      rw [if_pos h]
      exact (max_eq_left hm).symm
    · have hm : 0 ≤ income * rate := mul_nonneg h.le hr
      rw [if_neg (not_le.mpr h)]
      exact (max_eq_right hm).symm

/-- C3 witness: concrete instances of the three conjuncts. -/
theorem claims_C3_witness :
    sarsAnnualTaxIndexed (-5) 40 0 0 false = 0 ∧
      flatTax 7 (1 / 4) = max 0 (7 * (1 / 4)) :=
  ⟨(claims_C3_theorem.1 (-5) 40 0 0 0 false (by norm_num)).1,
    claims_C3_theorem.2.2 7 (1 / 4) (by norm_num)⟩

/-- Crossing the age-65 threshold strictly increases the rebate. -/
lemma sarsRebate_lt_65 {a1 a2 : ℚ} (h1 : a1 < 65) (h2 : 65 ≤ a2) :
    sarsRebate a1 < sarsRebate a2 := by
  unfold sarsRebate SARS_PRIMARY_REBATE SARS_SECONDARY_REBATE
    SARS_TERTIARY_REBATE
  split_ifs <;> linarith

/-- Crossing the age-75 threshold strictly increases the rebate. -/
lemma sarsRebate_lt_75 {a1 a2 : ℚ} (h1 : 65 ≤ a1) (h1' : a1 < 75)
    (h2 : 75 ≤ a2) : sarsRebate a1 < sarsRebate a2 := by
  unfold sarsRebate SARS_PRIMARY_REBATE SARS_SECONDARY_REBATE
    SARS_TERTIARY_REBATE
  split_ifs <;> linarith

/-- A strictly larger rebate weakly lowers the tax at every income, and
strictly lowers it whenever the smaller-rebate tax is positive. -/
lemma sarsAnnualTax_rebate_lt (income : ℚ) {a1 a2 : ℚ}
    (h : sarsRebate a1 < sarsRebate a2) :
    sarsAnnualTax income a2 ≤ sarsAnnualTax income a1 ∧
      (0 < sarsAnnualTax income a1 →
        sarsAnnualTax income a2 < sarsAnnualTax income a1) := by
  unfold sarsAnnualTax
  split_ifs with hi
  · exact ⟨le_refl 0, fun h0 => absurd h0 (lt_irrefl 0)⟩
  · constructor
    · exact max_le_max (le_refl 0) (by linarith)
    · intro h0
      have hp : 0 < sarsBracketScan SARS_BRACKETS_2026 true 0 income
          - sarsRebate a1 := by
        by_contra hc
        push_neg at hc
        rw [max_eq_left hc] at h0
        exact lt_irrefl 0 h0
      rw [max_eq_right hp.le]
      exact max_lt hp (by linarith)

/-- C7: as stated ("strictly decreases ... for every income") the claim is
false: at income 1 000 the rebate floor makes the tax 0 at both age 60 and
age 70, so crossing the 65 threshold does not strictly decrease it. -/
theorem claims_C7_counterexample :
    ¬ sarsAnnualTax 1000 70 < sarsAnnualTax 1000 60 := by
  norm_num [sarsAnnualTax, sarsBracketScan, SARS_BRACKETS_2026, sarsRebate,
    SARS_PRIMARY_REBATE, SARS_SECONDARY_REBATE, SARS_TERTIARY_REBATE]

/-- C7 (amended): crossing the 65 threshold (resp. the 75 threshold) weakly
decreases the progressive tax at every income, and strictly decreases it
whenever the younger age's tax is positive. -/
theorem claims_C7_theorem (income a1 a2 : ℚ) :
    (a1 < 65 → 65 ≤ a2 →
      sarsAnnualTax income a2 ≤ sarsAnnualTax income a1 ∧
        (0 < sarsAnnualTax income a1 →
          sarsAnnualTax income a2 < sarsAnnualTax income a1))
    ∧ (65 ≤ a1 → a1 < 75 → 75 ≤ a2 →
      sarsAnnualTax income a2 ≤ sarsAnnualTax income a1 ∧
        (0 < sarsAnnualTax income a1 →
          sarsAnnualTax income a2 < sarsAnnualTax income a1)) :=
  ⟨fun h1 h2 => sarsAnnualTax_rebate_lt income (sarsRebate_lt_65 h1 h2),
    fun h1 h1' h2 => sarsAnnualTax_rebate_lt income (sarsRebate_lt_75 h1 h1' h2)⟩

/-- C7 witness: at income 500 000 the tax strictly drops across the 65
threshold (ages 60 → 70). -/
theorem claims_C7_witness :
    sarsAnnualTax 500000 70 < sarsAnnualTax 500000 60 :=
  ((claims_C7_theorem 500000 60 70).1 (by norm_num) (by norm_num)).2
    (by norm_num [sarsAnnualTax, sarsBracketScan, SARS_BRACKETS_2026,
      sarsRebate, SARS_PRIMARY_REBATE, SARS_SECONDARY_REBATE,
      SARS_TERTIARY_REBATE])

/-! ## Claims about the accumulation simulator (C2, C9) -/

/-- C2: as stated the within-one-unit clause is false: with remaining
headroom 1 and a nonzero desired contribution of 1/2, the month's TFSA
contribution is 1/2, not the full headroom. -/
theorem claims_C2_counterexample :
    TFSA_LIFETIME_LIMIT - (499999 : ℚ) ≤ 1 ∧ ((1 : ℚ) / 2) ≠ 0 ∧
      (monthStep (1 / 2) 0 0 ⟨0, 0, 499999, 0, 0⟩).tfsaContribTotal - 499999
        ≠ TFSA_LIFETIME_LIMIT - 499999 := by
  refine ⟨by norm_num [TFSA_LIFETIME_LIMIT], by norm_num, ?_⟩
  norm_num [monthStep, TFSA_LIFETIME_LIMIT]

/-- C2 (amended): each month of `accumulateToRetirement` (one `monthStep`),
starting within the lifetime cap with a nonnegative desired TFSA
contribution, puts `min(desired, remaining headroom)` into the TFSA pool and
adds the shortfall to the RA pool's share that same month; and when the
remaining headroom is within 1 unit and the desired contribution is at least
1 unit, the month's TFSA contribution equals exactly the remaining headroom
(so the overflow is `desired − headroom`). -/
theorem claims_C2_theorem (d rm mr : ℚ) (s : MonthState) (hd : 0 ≤ d)
    (hs : s.tfsaContribTotal ≤ TFSA_LIFETIME_LIMIT) :
    (monthStep d rm mr s).tfsaContribTotal - s.tfsaContribTotal
        = min d (TFSA_LIFETIME_LIMIT - s.tfsaContribTotal)
    ∧ (monthStep d rm mr s).tfsaAnnual
        = s.tfsaAnnual
          + ((monthStep d rm mr s).tfsaContribTotal - s.tfsaContribTotal)
    ∧ (monthStep d rm mr s).raAnnual
        = s.raAnnual + rm
          + (d - ((monthStep d rm mr s).tfsaContribTotal
            - s.tfsaContribTotal))
    ∧ (TFSA_LIFETIME_LIMIT - s.tfsaContribTotal ≤ 1 → 1 ≤ d →
        (monthStep d rm mr s).tfsaContribTotal - s.tfsaContribTotal
          = TFSA_LIFETIME_LIMIT - s.tfsaContribTotal) := by
  unfold monthStep
  dsimp only
  split_ifs with h
  · have hminle : min d (TFSA_LIFETIME_LIMIT - s.tfsaContribTotal) ≤ d :=
      min_le_left _ _
    have hmax : max 0 (d - min d (TFSA_LIFETIME_LIMIT - s.tfsaContribTotal))
        = d - min d (TFSA_LIFETIME_LIMIT - s.tfsaContribTotal) :=
      max_eq_right (by linarith)
    refine ⟨by ring, by ring, ?_, ?_⟩
    · rw [hmax]
      ring
    · intro hh hd1
      have : min d (TFSA_LIFETIME_LIMIT - s.tfsaContribTotal)
          = TFSA_LIFETIME_LIMIT - s.tfsaContribTotal :=
        min_eq_right (by linarith)
      rw [this]
      ring
  · push_neg at h
    have he : TFSA_LIFETIME_LIMIT - s.tfsaContribTotal = 0 := by linarith
    have hm : min d (TFSA_LIFETIME_LIMIT - s.tfsaContribTotal) = 0 := by
      rw [he]
      exact min_eq_right hd
    refine ⟨by rw [hm]; ring, by ring, by ring, ?_⟩
    intro _ _
    dsimp only
    rw [he]
    ring

/-- C2 witness: with 999999/2 already contributed (headroom 1/2 ≤ 1) and a
desired contribution of 2, the month's TFSA contribution is exactly the
headroom. -/
theorem claims_C2_witness :
    (monthStep 2 3 0 ⟨0, 0, 999999 / 2, 0, 0⟩).tfsaContribTotal - 999999 / 2
      = TFSA_LIFETIME_LIMIT - 999999 / 2 :=
  (claims_C2_theorem 2 3 0 ⟨0, 0, 999999 / 2, 0, 0⟩ (by norm_num)
    (by norm_num [TFSA_LIFETIME_LIMIT])).2.2.2
    (by norm_num [TFSA_LIFETIME_LIMIT]) (by norm_num)

/-- One month keeps the cumulative TFSA contribution within the lifetime
cap. -/
lemma monthStep_total_le (d rm mr : ℚ) (s : MonthState)
    (hs : s.tfsaContribTotal ≤ TFSA_LIFETIME_LIMIT) :
    (monthStep d rm mr s).tfsaContribTotal ≤ TFSA_LIFETIME_LIMIT := by
  unfold monthStep
  dsimp only
  split_ifs with h
  · have := min_le_right d (TFSA_LIFETIME_LIMIT - s.tfsaContribTotal)
    dsimp only
    linarith
  · dsimp only
    linarith

/-- One month moves `tfsaAnnual` by exactly the cumulative-total change. -/
lemma monthStep_annual (d rm mr : ℚ) (s : MonthState) :
    (monthStep d rm mr s).tfsaAnnual - s.tfsaAnnual
      = (monthStep d rm mr s).tfsaContribTotal - s.tfsaContribTotal := by
  unfold monthStep
  dsimp only
  split_ifs <;> dsimp only <;> ring

/-- The month fold keeps the cap and moves `tfsaAnnual` by the total
change. -/
lemma monthsFold_inv (d rm mr : ℚ) :
    ∀ (n : ℕ) (s : MonthState), s.tfsaContribTotal ≤ TFSA_LIFETIME_LIMIT →
      (monthsFold d rm mr n s).tfsaContribTotal ≤ TFSA_LIFETIME_LIMIT ∧
        (monthsFold d rm mr n s).tfsaAnnual - s.tfsaAnnual
          = (monthsFold d rm mr n s).tfsaContribTotal
            - s.tfsaContribTotal := by
  intro n
  induction n with
  | zero => intro s hs; exact ⟨hs, by unfold monthsFold; ring⟩
  | succ k ih =>
    intro s hs
    have h1 := monthStep_total_le d rm mr s hs
    have h2 := monthStep_annual d rm mr s
    obtain ⟨ha, hb⟩ := ih (monthStep d rm mr s) h1
    exact ⟨ha, by unfold monthsFold; linarith⟩

/-- One year keeps the cap and appends exactly one ledger row whose
`tfsaContribution` is the year's cumulative-total change. -/
lemma yearStep_inv (inp : AccInputs) (st : AccState) (y : ℕ)
    (hs : st.tfsaContribTotal ≤ TFSA_LIFETIME_LIMIT) :
    (yearStep inp st y).tfsaContribTotal ≤ TFSA_LIFETIME_LIMIT ∧
      ((yearStep inp st y).timeline.map PreRecord.tfsaContribution).sum
        = (st.timeline.map PreRecord.tfsaContribution).sum
          + ((yearStep inp st y).tfsaContribTotal - st.tfsaContribTotal) := by
  unfold yearStep
  dsimp only
  obtain ⟨ha, hb⟩ := monthsFold_inv inp.tfsaMonthly
    (max 0 (inp.contributionMonthly * (1 + inp.annualIncrease) ^ y
      - inp.tfsaMonthly)) inp.monthlyRate 12
    ⟨st.ra, st.tfsa, st.tfsaContribTotal, 0, 0⟩ hs
  refine ⟨ha, ?_⟩
  rw [List.map_append, List.sum_append]
  dsimp only [List.map_cons, List.map_nil, List.sum_cons, List.sum_nil]
  dsimp only at hb
  linarith

/-- The year fold keeps the cap and accounts the ledger sum as the
cumulative-total change. -/
lemma accFold_inv (inp : AccInputs) :
    ∀ (l : List ℕ) (st : AccState),
      st.tfsaContribTotal ≤ TFSA_LIFETIME_LIMIT →
      (l.foldl (yearStep inp) st).tfsaContribTotal ≤ TFSA_LIFETIME_LIMIT ∧
        ((l.foldl (yearStep inp) st).timeline.map
            PreRecord.tfsaContribution).sum
          = (st.timeline.map PreRecord.tfsaContribution).sum
            + ((l.foldl (yearStep inp) st).tfsaContribTotal
              - st.tfsaContribTotal) := by
  intro l
  induction l with
  | nil => intro st hs; exact ⟨hs, by simp⟩
  | cons y rest ih =>
    intro st hs
    obtain ⟨h1, h2⟩ := yearStep_inv inp st y hs
    obtain ⟨h3, h4⟩ := ih (yearStep inp st y) h1
    refine ⟨h3, ?_⟩
    rw [List.foldl_cons] at *
    linarith

/-- C9: starting at or below the lifetime cap with a nonnegative desired
monthly TFSA contribution, the sum of `tfsaContribution` over the whole
pre-retirement ledger never exceeds `500 000 − tfsaContribToDate` (the
cumulative lifetime total never exceeds the cap). -/
theorem claims_C9_theorem (inp : AccInputs)
    (h1 : inp.tfsaContribToDate ≤ TFSA_LIFETIME_LIMIT)
    (h2 : 0 ≤ inp.tfsaMonthly) :
    ((accumulateToRetirement inp).timeline.map
        PreRecord.tfsaContribution).sum
      ≤ TFSA_LIFETIME_LIMIT - inp.tfsaContribToDate := by
  unfold accumulateToRetirement
  dsimp only
  obtain ⟨ha, hb⟩ := accFold_inv inp
    (List.range (loopCount (inp.retireAge - inp.currentAge)))
    ⟨inp.initialCapitalTaxable, inp.initialTfsaBalance,
      inp.tfsaContribToDate, []⟩ h1
  dsimp only at ha hb
  rw [hb]
  simp only [List.map_nil, List.sum_nil]
  linarith

/-- Accumulation inputs for the C9 witness: one year, desired 100 a month. -/
def accInputsC9W : AccInputs :=
  ⟨40, 41, 0, 500, 100, 0, 0, 0, 0, 0, false, 0, false,
    GrowthMode.customMode, 0⟩

/-- C9 witness: concrete instance of the ledger-sum bound. -/
theorem claims_C9_witness :
    ((accumulateToRetirement accInputsC9W).timeline.map
        PreRecord.tfsaContribution).sum
      ≤ TFSA_LIFETIME_LIMIT - accInputsC9W.tfsaContribToDate :=
  claims_C9_theorem accInputsC9W
    (by norm_num [accInputsC9W, TFSA_LIFETIME_LIMIT])
    (by norm_num [accInputsC9W])

/-! ## Claims about the decumulation simulator (C4) -/

/-- A tax-free draw never overdraws the pool. -/
lemma tfsaDraw_fst_nonneg (tfsa rem yg : ℚ) (h : 0 ≤ tfsa) :
    0 ≤ (tfsaDraw tfsa rem yg).1 := by
  unfold tfsaDraw
  split_ifs with hc
  · dsimp only
    have := min_le_left tfsa rem
    linarith
  · exact h

/-- A taxable draw never overdraws the pool. -/
lemma raDraw_fst_nonneg (inp : DecInputs) (age : ℚ) (yfn : ℕ)
    (ra rem yg yt : ℚ) (h : 0 ≤ ra) :
    0 ≤ (raDraw inp age yfn ra rem yg yt).1 := by
  unfold raDraw
  dsimp only
  split_ifs with h1 h2
  · dsimp only
    linarith
  · exact le_refl 0
  · exact h

/-- The year loop of the decumulation simulator preserves nonnegative pool
balances in every emitted ledger row, whenever the growth factor
`1 + postReturn` is nonnegative. -/
lemma decRun_nonneg (inp : DecInputs) (hpost : 0 ≤ 1 + inp.postReturn) :
    ∀ (fuel y : ℕ) (ra tfsa : ℚ) (y1 : ℚ × ℚ × ℚ) (acc : List PostRecord),
      0 ≤ ra → 0 ≤ tfsa →
      (∀ r ∈ acc, 0 ≤ r.raEnd ∧ 0 ≤ r.tfsaEnd) →
      ∀ r ∈ (decRun inp fuel y ra tfsa y1 acc).timeline,
        0 ≤ r.raEnd ∧ 0 ≤ r.tfsaEnd := by
  intro fuel
  induction fuel with
  | zero => intro y ra tfsa y1 acc _ _ hacc; exact hacc
  | succ k ih =>
    intro y ra tfsa y1 acc hra htfsa hacc
    unfold decRun
    dsimp only
    cases hdo : inp.depleteOrder with
    | tfsaFirst =>
      dsimp only
      set t := tfsaDraw tfsa
        (inp.targetNetMonthlyAtRet * 12 * (1 + inp.inflation) ^ y) 0 with ht
      set r := raDraw inp (inp.retireAge + (y : ℚ))
        (inp.yearsFromNowStart + y) ra t.2.1 t.2.2 0 with hrr
      have hra' : 0 ≤ r.1 := raDraw_fst_nonneg _ _ _ _ _ _ _ hra
      have htf' : 0 ≤ t.1 := tfsaDraw_fst_nonneg _ _ _ htfsa
      have hraEnd : 0 ≤ r.1 * (1 + inp.postReturn) := mul_nonneg hra' hpost
      have htfEnd : 0 ≤ t.1 * (1 + inp.postReturn) := mul_nonneg htf' hpost
      have hacc' : ∀ x ∈ acc ++
          [⟨y, inp.retireAge + (y : ℚ), ra, tfsa,
            r.1 * (1 + inp.postReturn), t.1 * (1 + inp.postReturn),
            inp.targetNetMonthlyAtRet * 12 * (1 + inp.inflation) ^ y,
            inp.targetNetMonthlyAtRet * 12 * (1 + inp.inflation) ^ y
              - max 0 r.2.1,
            r.2.2.1, r.2.2.2⟩],
          0 ≤ x.raEnd ∧ 0 ≤ x.tfsaEnd := by
        intro x hx
        rcases List.mem_append.mp hx with hx | hx
        · exact hacc x hx
        · rcases List.mem_singleton.mp hx with rfl
          exact ⟨hraEnd, htfEnd⟩
      split_ifs with hy hbreak hbreak <;>
        first
          | (dsimp only; exact hacc')
          | exact ih _ _ _ _ _ hraEnd htfEnd hacc'
    | raFirst =>
      dsimp only
      set r := raDraw inp (inp.retireAge + (y : ℚ))
        (inp.yearsFromNowStart + y) ra
        (inp.targetNetMonthlyAtRet * 12 * (1 + inp.inflation) ^ y) 0 0
        with hrr
      set t := tfsaDraw tfsa r.2.1 r.2.2.1 with ht
      have hra' : 0 ≤ r.1 := raDraw_fst_nonneg _ _ _ _ _ _ _ hra
      have htf' : 0 ≤ t.1 := tfsaDraw_fst_nonneg _ _ _ htfsa
      have hraEnd : 0 ≤ r.1 * (1 + inp.postReturn) := mul_nonneg hra' hpost
      have htfEnd : 0 ≤ t.1 * (1 + inp.postReturn) := mul_nonneg htf' hpost
      have hacc' : ∀ x ∈ acc ++
          [⟨y, inp.retireAge + (y : ℚ), ra, tfsa,
            r.1 * (1 + inp.postReturn), t.1 * (1 + inp.postReturn),
            inp.targetNetMonthlyAtRet * 12 * (1 + inp.inflation) ^ y,
            inp.targetNetMonthlyAtRet * 12 * (1 + inp.inflation) ^ y
              - max 0 t.2.1,
            t.2.2, r.2.2.2⟩],
          0 ≤ x.raEnd ∧ 0 ≤ x.tfsaEnd := by
        intro x hx
        rcases List.mem_append.mp hx with hx | hx
        · exact hacc x hx
        · rcases List.mem_singleton.mp hx with rfl
          exact ⟨hraEnd, htfEnd⟩
      split_ifs with hy hbreak hbreak <;>
        first
          | (dsimp only; exact hacc')
          | exact ih _ _ _ _ _ hraEnd htfEnd hacc'

/-- C4 (amended): with nonnegative starting balances AND a post-retirement
growth factor `1 + postReturn ≥ 0`, every post-retirement ledger row records
nonnegative balances; and whenever the grossed-up requirement exceeds the
remaining taxable balance, exactly the entire balance is withdrawn (the pool
becomes 0) with tax and net computed on that smaller amount. -/
theorem claims_C4_theorem (inp : DecInputs) (h1 : 0 ≤ inp.raStart)
    (h2 : 0 ≤ inp.tfsaStart) (h3 : 0 ≤ 1 + inp.postReturn) :
    (∀ r ∈ (simulateDecumulation inp).timeline,
      0 ≤ r.raEnd ∧ 0 ≤ r.tfsaEnd)
    ∧ (∀ (age : ℚ) (yfn : ℕ) (ra rem yg yt : ℚ), 0 < ra → 0 < rem →
        ¬ (grossFromNetTarget rem age inp.taxMode inp.flatTaxRate yfn
            inp.inflation inp.taxRealism).gross ≤ ra →
        raDraw inp age yfn ra rem yg yt
          = (0,
             rem - (ra - taxAt inp.taxMode inp.flatTaxRate age yfn
               inp.inflation inp.taxRealism ra),
             yg + ra,
             yt + taxAt inp.taxMode inp.flatTaxRate age yfn inp.inflation
               inp.taxRealism ra)) := by
  constructor
  · intro r hr
    exact decRun_nonneg inp h3 _ 0 inp.raStart inp.tfsaStart (0, 0, 0) []
      h1 h2 (by intro x hx; exact absurd hx (List.not_mem_nil x)) r hr
  · intro age yfn ra rem yg yt hra hrem hover
    unfold raDraw
    rw [if_pos ⟨hra, hrem⟩]
    dsimp only
    rw [if_neg hover]

/-- Decumulation inputs for the C4 counterexample: post-retirement return of
−200% (sanitized `postReturn` −2), positive RA balance, zero target. -/
def decInputsC4X : DecInputs :=
  ⟨60, 61, -2, 0, 0, 100, 0, DepleteOrder.tfsaFirst, TaxMode.FLAT, 0, 0,
    false⟩

/-- C4: as stated (for all nonnegative starting balances, without any
restriction on the growth rate) the claim is false: with a −200% post-return
the only ledger row records an RA balance of −100. -/
theorem claims_C4_counterexample :
    ((simulateDecumulation decInputsC4X).timeline.map PostRecord.raEnd)
        = [-100]
      ∧ ¬ (0 : ℚ) ≤ -100 := by
  constructor
  · norm_num [simulateDecumulation, decRun, tfsaDraw, raDraw, loopCount,
      decInputsC4X]
  · norm_num

/-- Decumulation inputs for the C4 witness. -/
def decInputsC4W : DecInputs :=
  ⟨60, 61, 0, 0, 0, 0, 0, DepleteOrder.tfsaFirst, TaxMode.FLAT, 0, 0, false⟩

/-- C4 witness: concrete instances of both conjuncts of the amended claim. -/
theorem claims_C4_witness :
    (0 ≤ (⟨0, 60, 0, 0, 0, 0, 0, 0, 0, 0⟩ : PostRecord).raEnd
      ∧ 0 ≤ (⟨0, 60, 0, 0, 0, 0, 0, 0, 0, 0⟩ : PostRecord).tfsaEnd)
    ∧ raDraw decInputsC4W 60 0 1 1000 0 0
        = (0,
           1000 - (1 - taxAt decInputsC4W.taxMode decInputsC4W.flatTaxRate
             60 0 decInputsC4W.inflation decInputsC4W.taxRealism 1),
           0 + 1,
           0 + taxAt decInputsC4W.taxMode decInputsC4W.flatTaxRate 60 0
             decInputsC4W.inflation decInputsC4W.taxRealism 1) := by
  have hmain := claims_C4_theorem decInputsC4W (by norm_num [decInputsC4W])
    (by norm_num [decInputsC4W]) (by norm_num [decInputsC4W])
  constructor
  · refine hmain.1 ⟨0, 60, 0, 0, 0, 0, 0, 0, 0, 0⟩ ?_
    have ht : (simulateDecumulation decInputsC4W).timeline
        = [⟨0, 60, 0, 0, 0, 0, 0, 0, 0, 0⟩] := by
      norm_num [simulateDecumulation, decRun, tfsaDraw, raDraw, loopCount,
        decInputsC4W]
    rw [ht]
    exact List.mem_singleton_self _
  · refine hmain.2 60 0 1 1000 0 0 (by norm_num) (by norm_num) ?_
    have hb := grossFromNetTarget_gross_bracket 1000 60
      decInputsC4W.flatTaxRate decInputsC4W.taxMode 0
      decInputsC4W.inflation decInputsC4W.taxRealism (by norm_num)
    push_neg
    calc (1 : ℚ) < 1000 := by norm_num
    _ ≤ _ := hb.1

/-! ## Claims about the orchestrator (C8, C5) -/

/-- Parameters with a negative retirement age for the C8 counterexample. -/
def paramsC8X : Params :=
  { currentAge := some 0
    retireAge := some (-3)
    lifeExpectancy := some (-5)
    initialCapital := some 0
    initialTfsaBalance := some 0
    tfsaContribToDate := some 0
    targetNetToday := some 0
    preMonthlyRate := 0
    postReturn := some 0
    inflation := some 0
    annualIncrease := some 0
    tfsaMonthly := some 0
    grossIncome := some 0
    incomeGrowthMode := GrowthMode.customMode
    incomeGrowthRate := some 0
    depleteOrder := DepleteOrder.tfsaFirst
    taxMode := TaxMode.FLAT
    flatTaxRate := some 25
    reinvestRaTaxSaving := false
    taxRealism := false }

/-- C8: as stated the claim is false: the core only substitutes a fallback
for unparsable (`NaN`) input — a parsed negative age is NOT clamped and
reaches the solver unchanged. -/
theorem claims_C8_counterexample :
    numberOr (some (-5)) 30 = -5
      ∧ (useRetirementProjection paramsC8X).retirementAgeNumeric = -3
      ∧ (useRetirementProjection paramsC8X).retirementAgeNumeric < 0 := by
  refine ⟨rfl, rfl, ?_⟩
  have h : (useRetirementProjection paramsC8X).retirementAgeNumeric = -3 := rfl
  rw [h]
  norm_num

/-- C8 (amended): each numeric field is coerced with a defined fallback —
`numberOr` returns the fallback exactly on an unparsable input and the parsed
value otherwise (no clamping of negative values) — and the sanitized ages the
solver uses are exactly `numberOr` of the raw fields. -/
theorem claims_C8_theorem :
    (∀ fb : ℚ, numberOr none fb = fb)
    ∧ (∀ x fb : ℚ, numberOr (some x) fb = x)
    ∧ (∀ p : Params,
        (useRetirementProjection p).retirementAgeNumeric
            = numberOr p.retireAge 65
          ∧ (useRetirementProjection p).lifeExpectancyNumeric
            = numberOr p.lifeExpectancy 100) :=
  ⟨fun _ => rfl, fun _ _ => rfl, fun _ => ⟨rfl, rfl⟩⟩

/-- If every candidate contribution fails to reach life expectancy, the
expansion loop performs all its doublings. -/
lemma expandHigh_all_fail (p : Params) (lifeExp : ℚ)
    (h : ∀ c, (simulateWithContribution p c).exhaustionAge < lifeExp) :
    ∀ (n : ℕ) (high : ℚ),
      expandHigh p lifeExp n high (simulateWithContribution p high)
        = (high * 2 ^ n, simulateWithContribution p (high * 2 ^ n)) := by
  intro n
  induction n with
  | zero =>
    intro high
    unfold expandHigh
    rw [pow_zero, mul_one]
  | succ k ih =>
    intro high
    unfold expandHigh
    rw [if_pos (h high), ih (high * 2)]
    rw [show high * 2 * 2 ^ k = high * 2 ^ (k + 1) by ring]

/-- If every candidate contribution fails to reach life expectancy, the
bisection never lowers the upper bound nor replaces the solution. -/
lemma solveBisect_all_fail (p : Params) (lifeExp : ℚ)
    (h : ∀ c, (simulateWithContribution p c).exhaustionAge < lifeExp) :
    ∀ (n : ℕ) (low high : ℚ) (sol : Solution),
      solveBisect p lifeExp n low high sol = (high, sol) := by
  intro n
  induction n with
  | zero => intro low high sol; rfl
  | succ k ih =>
    intro low high sol
    unfold solveBisect
    rw [if_neg (not_le.mpr (h ((low + high) / 2))), ih]

/-- C5: if no candidate contribution can sustain the target to life
expectancy (in particular the maximum expanded bound cannot), the solver
still returns a result: `requiredMonthlyContribution` is the largest tried
bound, `50 000 × 2¹⁰ = 51 200 000`, and the returned `exhaustionAge` is below
the requested life expectancy, so infeasibility is detectable. -/
theorem claims_C5_theorem (p : Params)
    (h : ∀ c, (simulateWithContribution p c).exhaustionAge
      < numberOr p.lifeExpectancy 100) :
    (useRetirementProjection p).requiredMonthlyContribution = 50000 * 2 ^ 10
      ∧ (useRetirementProjection p).exhaustionAge
        < numberOr p.lifeExpectancy 100 := by
  have hrun : solverRun p
      = (50000 * 2 ^ 10, simulateWithContribution p (50000 * 2 ^ 10)) := by
    unfold solverRun
    dsimp only
    rw [expandHigh_all_fail p _ h 10 50000]
    dsimp only
    rw [solveBisect_all_fail p _ h 30 0 _ _]
  have hreq : (useRetirementProjection p).requiredMonthlyContribution
      = (solverRun p).1 := rfl
  have hexh : (useRetirementProjection p).exhaustionAge
      = (solverRun p).2.exhaustionAge := rfl
  rw [hreq, hexh, hrun]
  exact ⟨rfl, h _⟩

/-- Parameters for the C5 witness: no horizon to accumulate, one retirement
year whose need can never be met (no capital at all), so every contribution
fails. -/
def paramsC5W : Params :=
  { currentAge := some 60
    retireAge := some 60
    lifeExpectancy := some 61
    initialCapital := some 0
    initialTfsaBalance := some 0
    tfsaContribToDate := some 0
    targetNetToday := some 100
    preMonthlyRate := 0
    postReturn := some 0
    inflation := some 0
    annualIncrease := some 0
    tfsaMonthly := some 0
    grossIncome := some 0
    incomeGrowthMode := GrowthMode.customMode
    incomeGrowthRate := some 0
    depleteOrder := DepleteOrder.tfsaFirst
    taxMode := TaxMode.FLAT
    flatTaxRate := some 25
    reinvestRaTaxSaving := false
    taxRealism := false }

/-- Every contribution fails for `paramsC5W`: there are no accumulation
years, so both pools stay empty and the first retirement year's need is
unmet. -/
lemma paramsC5W_all_fail (c : ℚ) :
    (simulateWithContribution paramsC5W c).exhaustionAge
      < numberOr paramsC5W.lifeExpectancy 100 := by
  have h : (simulateWithContribution paramsC5W c).exhaustionAge = 60 := by
    norm_num [simulateWithContribution, paramsC5W, numberOr, loopCount,
      accumulateToRetirement, simulateDecumulation, decRun, tfsaDraw, raDraw]
  rw [h]
  norm_num [paramsC5W, numberOr]

/-- C5 witness: the solver's best-effort answer on the infeasible input. -/
theorem claims_C5_witness :
    (useRetirementProjection paramsC5W).requiredMonthlyContribution
        = 50000 * 2 ^ 10
      ∧ (useRetirementProjection paramsC5W).exhaustionAge
        < numberOr paramsC5W.lifeExpectancy 100 :=
  claims_C5_theorem paramsC5W (fun c => paramsC5W_all_fail c)

/-! ## Claim C6: monotonicity of the required contribution in the target -/

/-- C6 failing input, lower target: `targetNetToday = −10`, all other fields
as in `paramsC6B`.  The sanitized inflation is −200%, so the multiplier
`(1 + inflation) ^ yearsToRetire = −1` maps this target to a POSITIVE
retirement income requirement of 10 a month. -/
def paramsC6A : Params :=
  { currentAge := some 59
    retireAge := some 60
    lifeExpectancy := some 61
    initialCapital := some 0
    initialTfsaBalance := some 0
    tfsaContribToDate := some 0
    targetNetToday := some (-10)
    preMonthlyRate := 0
    postReturn := some 0
    inflation := some (-200)
    annualIncrease := some 0
    tfsaMonthly := some 0
    grossIncome := some 0
    incomeGrowthMode := GrowthMode.customMode
    incomeGrowthRate := some 0
    depleteOrder := DepleteOrder.tfsaFirst
    taxMode := TaxMode.FLAT
    flatTaxRate := some 25
    reinvestRaTaxSaving := false
    taxRealism := false }

/-- C6 failing input, higher target: identical to `paramsC6A` except
`targetNetToday = 10`, which the −1 multiplier maps to a NEGATIVE (never
binding) income requirement. -/
def paramsC6B : Params :=
  { currentAge := some 59
    retireAge := some 60
    lifeExpectancy := some 61
    initialCapital := some 0
    initialTfsaBalance := some 0
    tfsaContribToDate := some 0
    targetNetToday := some 10
    preMonthlyRate := 0
    postReturn := some 0
    inflation := some (-200)
    annualIncrease := some 0
    tfsaMonthly := some 0
    grossIncome := some 0
    incomeGrowthMode := GrowthMode.customMode
    incomeGrowthRate := some 0
    depleteOrder := DepleteOrder.tfsaFirst
    taxMode := TaxMode.FLAT
    flatTaxRate := some 25
    reinvestRaTaxSaving := false
    taxRealism := false }

/-- The two C6 inputs differ only in `targetNetToday`, and the second target
is larger. -/
theorem claims_C6_inputs_differ :
    paramsC6A.targetNetToday = some (-10)
      ∧ paramsC6B.targetNetToday = some 10
      ∧ (-10 : ℚ) < 10
      ∧ { paramsC6A with targetNetToday := paramsC6B.targetNetToday }
          = paramsC6B := by
  refine ⟨rfl, rfl, by norm_num, rfl⟩


/-- The decumulation inputs produced by `simulateWithContribution` on
`paramsC6A` for an accumulated taxable balance `ra`. -/
def decInpC6A (ra : ℚ) : DecInputs :=
  ⟨60, 61, 0, -2, 10, ra, 0, DepleteOrder.tfsaFirst, TaxMode.FLAT, 1 / 4, 1,
    false⟩

/-- The decumulation inputs produced by `simulateWithContribution` on
`paramsC6B` for an accumulated taxable balance `ra`. -/
def decInpC6B (ra : ℚ) : DecInputs :=
  ⟨60, 61, 0, -2, -10, ra, 0, DepleteOrder.tfsaFirst, TaxMode.FLAT, 1 / 4, 1,
    false⟩

/-- Bounds on the year-one gross-up of 120 under the 25% flat tax. -/
lemma grossC6_facts :
    (160 : ℚ) ≤
        (grossFromNetTarget 120 60 TaxMode.FLAT (1 / 4) 1 (-2) false).gross
      ∧ (grossFromNetTarget 120 60 TaxMode.FLAT (1 / 4) 1 (-2) false).gross
        ≤ 162
      ∧ (120 : ℚ) ≤
        (grossFromNetTarget 120 60 TaxMode.FLAT (1 / 4) 1 (-2) false).net := by
  have hb := grossFromNetTarget_net_bounds 120 60 (1 / 4) TaxMode.FLAT 1 (-2)
    false (fun _ => by norm_num) (fun _ => by norm_num) (by norm_num)
  have htn := grossFromNetTarget_tax_net 120 60 TaxMode.FLAT (1 / 4) 1 (-2)
    false (by norm_num)
  have hbr := grossFromNetTarget_gross_bracket 120 60 (1 / 4) TaxMode.FLAT 1
    (-2) false (by norm_num)
  have hgpos : (0 : ℚ) <
      (grossFromNetTarget 120 60 TaxMode.FLAT (1 / 4) 1 (-2) false).gross :=
    lt_of_lt_of_le (by norm_num) hbr.1
  have htax : (grossFromNetTarget 120 60 TaxMode.FLAT (1 / 4) 1 (-2)
      false).tax
      = (grossFromNetTarget 120 60 TaxMode.FLAT (1 / 4) 1 (-2) false).gross
        * (1 / 4) := by
    rw [htn.1]
    unfold taxAt flatTax
    rw [if_neg (not_le.mpr hgpos)]
  have hnet : (grossFromNetTarget 120 60 TaxMode.FLAT (1 / 4) 1 (-2)
      false).net
      = (grossFromNetTarget 120 60 TaxMode.FLAT (1 / 4) 1 (-2) false).gross
        * (3 / 4) := by
    rw [htn.2, htax]
    ring
  exact ⟨by nlinarith [hb.1], by nlinarith [hb.2], hb.1⟩

/-- With at most 156 in the taxable pool the C6A decumulation exhausts in its
first year. -/
lemma decC6A_small (ra : ℚ) (h1 : ra ≤ 156) :
    (simulateDecumulation (decInpC6A ra)).exhaustionAge = 60 := by
  rcases le_or_lt ra 0 with h0 | h0
  · norm_num [simulateDecumulation, decInpC6A, loopCount, decRun, tfsaDraw,
      raDraw, not_lt.mpr h0]
  · obtain ⟨hglo, hghi, hnlo⟩ := grossC6_facts
    have hlt : ¬ (grossFromNetTarget 120 60 TaxMode.FLAT (1 / 4) 1 (-2)
        false).gross ≤ ra := by
      push_neg
      linarith
    norm_num [simulateDecumulation, decInpC6A, loopCount, decRun, tfsaDraw,
      raDraw, h0, hlt, taxAt, flatTax, not_le.mpr h0]

/-- With at least 168 in the taxable pool the C6A decumulation survives the
whole horizon. -/
lemma decC6A_big (ra : ℚ) (h2 : 168 ≤ ra) :
    (simulateDecumulation (decInpC6A ra)).exhaustionAge = 61 := by
  obtain ⟨hglo, hghi, hnlo⟩ := grossC6_facts
  have h0 : (0 : ℚ) < ra := by linarith
  have hfit : (grossFromNetTarget 120 60 TaxMode.FLAT (1 / 4) 1 (-2)
      false).gross ≤ ra := by linarith
  have hrem : ¬ (0 : ℚ) < 120
      - (grossFromNetTarget 120 60 TaxMode.FLAT (1 / 4) 1 (-2) false).net := by
    push_neg
    linarith
  have hleft : ¬ (ra - (grossFromNetTarget 120 60 TaxMode.FLAT (1 / 4) 1 (-2)
      false).gross ≤ 0) := by
    push_neg
    linarith
  norm_num [simulateDecumulation, decInpC6A, loopCount, decRun, tfsaDraw,
    raDraw, h0, hfit, hrem, hleft]

/-- With any positive taxable pool the C6B decumulation survives the whole
horizon (its income requirement is negative, so nothing is drawn). -/
lemma decC6B_pos (ra : ℚ) (h0 : 0 < ra) :
    (simulateDecumulation (decInpC6B ra)).exhaustionAge = 61 := by
  norm_num [simulateDecumulation, decInpC6B, loopCount, decRun, tfsaDraw,
    raDraw, not_le.mpr h0]

/-- `simulateWithContribution` on the C6A parameters is the C6A decumulation
of the accumulated balance `12 · max 0 c`. -/
lemma simC6A_exh (c : ℚ) :
    (simulateWithContribution paramsC6A c).exhaustionAge
      = (simulateDecumulation (decInpC6A ((0 ⊔ c) * 12))).exhaustionAge := by
  unfold simulateWithContribution
  norm_num [paramsC6A, numberOr, loopCount, accumulateToRetirement, yearStep,
    monthsFold, monthStep, salaryGrowthRate, TFSA_LIFETIME_LIMIT,
    List.range_succ, List.range_zero, List.foldl_append, List.foldl_cons,
    List.foldl_nil, decInpC6A]
  congr 1
  ring

/-- `simulateWithContribution` on the C6B parameters is the C6B decumulation
of the accumulated balance `12 · max 0 c`. -/
lemma simC6B_exh (c : ℚ) :
    (simulateWithContribution paramsC6B c).exhaustionAge
      = (simulateDecumulation (decInpC6B ((0 ⊔ c) * 12))).exhaustionAge := by
  unfold simulateWithContribution
  norm_num [paramsC6B, numberOr, loopCount, accumulateToRetirement, yearStep,
    monthsFold, monthStep, salaryGrowthRate, TFSA_LIFETIME_LIMIT,
    List.range_succ, List.range_zero, List.foldl_append, List.foldl_cons,
    List.foldl_nil, decInpC6B]
  congr 1
  ring


/-- The outer bisection returns an upper bound that still survives to life
expectancy whenever its initial upper bound does. -/
lemma solveBisect_high_succ (p : Params) (L : ℚ) :
    ∀ (n : ℕ) (low high : ℚ) (sol : Solution),
      L ≤ (simulateWithContribution p high).exhaustionAge →
      L ≤ (simulateWithContribution p
        ((solveBisect p L n low high sol).1)).exhaustionAge := by
  intro n
  induction n with
  | zero => intro low high sol h; exact h
  | succ k ih =>
    intro low high sol h
    unfold solveBisect
    dsimp only
    split_ifs with hc
    · exact ih _ _ _ hc
    · exact ih _ _ _ h

/-- When every positive contribution survives, the bisection from lower
bound 0 halves its upper bound at every one of its steps. -/
lemma solveBisect_all_succ (p : Params) (L : ℚ)
    (hall : ∀ c : ℚ, 0 < c →
      L ≤ (simulateWithContribution p c).exhaustionAge) :
    ∀ (n : ℕ) (high : ℚ) (sol : Solution), 0 < high →
      (solveBisect p L n 0 high sol).1 = high / 2 ^ n := by
  intro n
  induction n with
  | zero =>
    intro high sol h
    unfold solveBisect
    norm_num
  | succ k ih =>
    intro high sol hh
    unfold solveBisect
    dsimp only
    rw [if_pos (hall ((0 + high) / 2) (by linarith))]
    rw [ih ((0 + high) / 2) _ (by linarith)]
    ring

/-- The expansion loop does not move off the initial bound 50 000 for the
C6A input, and the returned required contribution exceeds 13. -/
lemma solverRunC6A_gt : (13 : ℚ) < (solverRun paramsC6A).1 := by
  have hLife : numberOr paramsC6A.lifeExpectancy 100 = 61 := rfl
  have hs0 : (simulateWithContribution paramsC6A 50000).exhaustionAge
      = 61 := by
    rw [simC6A_exh]
    rw [show ((0 : ℚ) ⊔ 50000) * 12 = 600000 by norm_num]
    exact decC6A_big 600000 (by norm_num)
  have hrun : (solverRun paramsC6A).1
      = (solveBisect paramsC6A 61 30 0 50000
          (simulateWithContribution paramsC6A 50000)).1 := by
    unfold solverRun
    dsimp only
    rw [hLife]
    norm_num [expandHigh, hs0]
  have hsucc := solveBisect_high_succ paramsC6A 61 30 0 50000
    (simulateWithContribution paramsC6A 50000) (le_of_eq hs0.symm)
  by_contra hle
  push_neg at hle
  rw [hrun] at hle
  have hsmall : (simulateWithContribution paramsC6A
      ((solveBisect paramsC6A 61 30 0 50000
        (simulateWithContribution paramsC6A 50000)).1)).exhaustionAge
      = 60 := by
    rw [simC6A_exh]
    apply decC6A_small
    have hm : (0 : ℚ) ⊔ ((solveBisect paramsC6A 61 30 0 50000
        (simulateWithContribution paramsC6A 50000)).1) ≤ 13 :=
      max_le (by norm_num) hle
    linarith
  rw [hsmall] at hsucc
  linarith

/-- The C6B solver collapses its upper bound all the way down. -/
lemma solverRunC6B_eq : (solverRun paramsC6B).1 = 50000 / 2 ^ 30 := by
  have hLife : numberOr paramsC6B.lifeExpectancy 100 = 61 := rfl
  have hall : ∀ c : ℚ, 0 < c →
      (61 : ℚ) ≤ (simulateWithContribution paramsC6B c).exhaustionAge := by
    intro c hc
    rw [simC6B_exh]
    rw [decC6B_pos ((0 ⊔ c) * 12)
      (mul_pos (lt_of_lt_of_le hc (le_max_right 0 c)) (by norm_num))]
  have hs0 : (simulateWithContribution paramsC6B 50000).exhaustionAge
      = 61 := by
    rw [simC6B_exh]
    exact decC6B_pos _ (by norm_num)
  have hrun : (solverRun paramsC6B).1
      = (solveBisect paramsC6B 61 30 0 50000
          (simulateWithContribution paramsC6B 50000)).1 := by
    unfold solverRun
    dsimp only
    rw [hLife]
    norm_num [expandHigh, hs0]
  rw [hrun, solveBisect_all_succ paramsC6B 61 hall 30 50000 _ (by norm_num)]

set_option maxHeartbeats 1000000 in
/-- C6: raising `targetNetToday` from −10 to 10, all else fixed, strictly
DECREASES `requiredMonthlyContribution`. -/
theorem claims_C6_theorem :
    (useRetirementProjection paramsC6B).requiredMonthlyContribution
      < (useRetirementProjection paramsC6A).requiredMonthlyContribution := by
  have ha : (useRetirementProjection paramsC6A).requiredMonthlyContribution
      = (solverRun paramsC6A).1 := rfl
  have hb : (useRetirementProjection paramsC6B).requiredMonthlyContribution
      = (solverRun paramsC6B).1 := rfl
  rw [ha, hb, solverRunC6B_eq]
  have h13 := solverRunC6A_gt
  have : (50000 : ℚ) / 2 ^ 30 < 13 := by norm_num
  linarith

end RevoCALC
